import Mathlib

/-!
# Health classification of the UGREEN LED monitor

A shallow embedding of the health classifiers, the pool aggregator, the disk
identity resolver, the monitoring cycles and the LED update of
`src/cli/ugreen_monitor.cpp` and `src/cli/zfs_monitor.cpp`, and of the way the
two programs `src/cli/ugreen_monitor_main.cpp` and `src/cli/ugreen_zfs_monitor.cpp`
combine the configuration file with the command line.

* A `std::string` is a `List Char` (alias `Str`); string constants of the
  source are written `"...".toList`.
* The output and the exit code of an external command are arguments of the
  function that runs the command in the source; so is the text of a file.
* A function that can throw returns an `Option`, `none` for the exception.
* A `std::string` position (`size_t`) is a `Nat`, and a search that fails
  returns `none` where the source returns `npos`.
* An `int` is an `Int`; an `int` that the code increments, or makes from a size,
  is wrapped to 32 bits.
-/

namespace Ugreen

/-- A `std::string`, as the list of its characters. -/
abbrev Str := List Char

/-! ## `std::string` operations -/

/-- The call `str.find(sub)`: the lowest position at which `sub` occurs in
`str`, and `none` (for `npos`) when it occurs nowhere. -/
def find : Str → Str → Option Nat
  | [], sub => if sub.isPrefixOf [] then some 0 else none
  | c :: cs, sub =>
      if sub.isPrefixOf (c :: cs) then some 0 else (find cs sub).map (· + 1)

/-- The function `StringUtils::contains`, and the test
`str.find(substring) != std::string::npos` where the source writes it out. -/
def contains (str substring : Str) : Bool :=
  (find str substring).isSome

/-- The call `str.find_first_not_of(chars)`. -/
def find_first_not_of : Str → Str → Option Nat
  | [], _ => none
  | c :: cs, chars =>
      if chars.elem c then (find_first_not_of cs chars).map (· + 1) else some 0

/-- The call `str.find_last_not_of(chars)`. -/
def find_last_not_of : Str → Str → Option Nat
  | [], _ => none
  | c :: cs, chars =>
      match find_last_not_of cs chars with
      | some i => some (i + 1)
      | none => if chars.elem c then none else some 0

/-- The value `std::string::npos` on a 64-bit target. -/
def npos : Nat := 2 ^ 64 - 1

/-- The call `str.substr(pos, count)` for `pos` within the string. -/
def substr (str : Str) (pos count : Nat) : Str :=
  (str.drop pos).take count

/-- The free function `trimString` of `zfs_monitor.cpp` (the same body as
`StringUtils::trim`). -/
def trimString (str : Str) : Str :=
  match find_first_not_of str " \t\n\r".toList with
  | none => []
  | some start =>
      let end_ := (find_last_not_of str " \t\n\r".toList).getD npos
      substr str start (end_ - start + 1)

/-! ## Enumerations (`zfs_monitor.h`, `ugreen_monitor.h`) -/

/-- The `enum class ZfsPoolHealth` of `zfs_monitor.h`. -/
inductive ZfsPoolHealth where
  | ONLINE
  | DEGRADED
  | FAULTED
  | UNAVAIL
  | SCRUB_ACTIVE
  | RESILVER_ACTIVE
  | SCRUB_ERRORS
  | UNKNOWN
  deriving DecidableEq, Repr

/-- The numeric value of each enumerator, `static_cast<int>` in the source. -/
def ZfsPoolHealth.toInt : ZfsPoolHealth → Int
  | .ONLINE => 0
  | .DEGRADED => 1
  | .FAULTED => 2
  | .UNAVAIL => 3
  | .SCRUB_ACTIVE => 5
  | .RESILVER_ACTIVE => 6
  | .SCRUB_ERRORS => 7
  | .UNKNOWN => 8

/-- The `enum class NetworkStatus` of `ugreen_monitor.h`. -/
inductive NetworkStatus where
  | HEALTHY
  | WARNING
  | CRITICAL
  | UNKNOWN
  deriving DecidableEq, Repr

/-- The `enum class SmartStatus` of `ugreen_monitor.h`. -/
inductive SmartStatus where
  | HEALTHY
  | WARNING
  | CRITICAL
  | UNAVAILABLE
  | DEVICE_NOT_FOUND
  deriving DecidableEq, Repr

/-! ## Pool aggregation (`ZfsMonitor::monitorZfsPools`) -/

/-- One iteration of the `for (const auto& pool : pools)` loop of
`ZfsMonitor::monitorZfsPools`: the `switch (info.health)` applied to the
accumulator `overall_status`. -/
def monitorZfsPools_step (overall_status : ZfsPoolHealth) (health : ZfsPoolHealth) :
    ZfsPoolHealth :=
  match health with
  | .ONLINE => overall_status
  | .DEGRADED =>
      if overall_status.toInt < ZfsPoolHealth.DEGRADED.toInt then .DEGRADED else overall_status
  | .FAULTED => .FAULTED
  | .SCRUB_ACTIVE =>
      if overall_status.toInt < ZfsPoolHealth.DEGRADED.toInt then .SCRUB_ACTIVE else overall_status
  | .RESILVER_ACTIVE =>
      if overall_status.toInt < ZfsPoolHealth.DEGRADED.toInt then .RESILVER_ACTIVE
      else overall_status
  | .SCRUB_ERRORS =>
      if overall_status.toInt < ZfsPoolHealth.DEGRADED.toInt then .SCRUB_ERRORS else overall_status
  | _ =>
      if overall_status.toInt < ZfsPoolHealth.DEGRADED.toInt then .UNAVAIL else overall_status

/-- The aggregation loop of `ZfsMonitor::monitorZfsPools` over the healths that
`getPoolInfo` reports for the pools, in pool order; `overall_status` starts at
`ONLINE`. (The source reaches the loop with at least one pool: it returns before
it when the pool list is empty.) -/
def monitorZfsPools_overall (healths : List ZfsPoolHealth) : ZfsPoolHealth :=
  healths.foldl monitorZfsPools_step .ONLINE

/-! ## Network classifier (`NetworkMonitor::checkNetworkStatus`) -/

/-- The `struct NetworkInterface` of `ugreen_monitor.h`. -/
structure NetworkInterface where
  name : Str
  is_up : Bool
  is_bridge : Bool
  status : Str
  speed : Nat
  deriving DecidableEq, Repr

/-- The value an `int` holds after an arithmetic result `x` (32 bits, two's
complement). -/
def wrapInt32 (x : Int) : Int :=
  (x + 2 ^ 31) % 2 ^ 32 - 2 ^ 31

/-- The locals `up_interfaces`, `bridge_up` and `physical_up` of
`checkNetworkStatus`. -/
structure NetworkCounters where
  up_interfaces : Int
  bridge_up : Bool
  physical_up : Bool
  deriving DecidableEq, Repr

/-- One iteration of the `for (const auto& iface : interfaces)` loop of
`checkNetworkStatus`. -/
def checkNetworkStatus_step (c : NetworkCounters) (iface : NetworkInterface) :
    NetworkCounters :=
  if iface.is_up then
    if iface.is_bridge then
      { c with up_interfaces := wrapInt32 (c.up_interfaces + 1), bridge_up := true }
    else
      { c with up_interfaces := wrapInt32 (c.up_interfaces + 1), physical_up := true }
  else c

/-- The function `NetworkMonitor::checkNetworkStatus`. `interfaces` is what
`getNetworkInterfaces()` returned, `ping_target` is the member `ping_target_`, and
`probe` is what `testConnectivity` returns when it is called. -/
def checkNetworkStatus (interfaces : List NetworkInterface) (ping_target : Str)
    (probe : Bool) : NetworkStatus :=
  if interfaces.isEmpty then .UNKNOWN
  else
    let c := interfaces.foldl checkNetworkStatus_step ⟨0, false, false⟩
    let has_connectivity :=
      if c.up_interfaces > 0 && !ping_target.isEmpty then probe else false
    if c.bridge_up || (c.physical_up && has_connectivity) then .HEALTHY
    else if c.up_interfaces > 0 then .WARNING
    else .CRITICAL

/-! ## S.M.A.R.T. classifier (`SmartMonitor`) -/

/-- The function `SmartMonitor::interpretExitCode`; `&` on `int` is `Int.land`. -/
def interpretExitCode (exit_code : Int) : SmartStatus :=
  if Int.land exit_code 8 ≠ 0 ∨ Int.land exit_code 16 ≠ 0 then .CRITICAL
  else if Int.land exit_code 64 ≠ 0 ∨ Int.land exit_code 128 ≠ 0 then .WARNING
  else if Int.land exit_code 7 ≠ 0 then .UNAVAILABLE
  else .HEALTHY

/-- The fields `status` and `health_status` of `struct SmartDiskInfo`; the other
fields are filled from the device path and from the texts of `smartctl -i` and
`smartctl -A`, and no statement of `getSmartInfo` reads them. -/
structure SmartDiskInfo where
  status : SmartStatus
  health_status : Str
  deriving DecidableEq, Repr

/-- The function `SmartMonitor::getSmartInfo`, for the fields of `SmartDiskInfo`
above. `smart_available` is the member `smart_available_`, `deviceExists` is
what `SystemUtils::deviceExists(device_path)` returns, and `exit_code` and
`health_output` are what `executeWithExitCode` gives for `smartctl -H`. -/
def getSmartInfo (smart_available deviceExists : Bool) (exit_code : Int)
    (health_output : Str) : SmartDiskInfo :=
  let info : SmartDiskInfo := { status := .UNAVAILABLE, health_status := [] }
  if !smart_available || !deviceExists then
    { info with status := .DEVICE_NOT_FOUND }
  else
    let info := { info with status := interpretExitCode exit_code }
    if contains health_output "PASSED".toList then
      { info with health_status := "PASSED".toList }
    else if contains health_output "FAILED".toList then
      { info with health_status := "FAILED".toList, status := .CRITICAL }
    else
      { info with health_status := "UNKNOWN".toList }

/-- The function `SmartMonitor::checkSmartStatus`, with the arguments of
`getSmartInfo`; `_output` is the text of `smartctl -H`, the local `output` that the
source fills and never reads. -/
def checkSmartStatus (smart_available deviceExists : Bool) (exit_code : Int)
    (_output : Str) : SmartStatus :=
  if !smart_available || !deviceExists then .DEVICE_NOT_FOUND
  else interpretExitCode exit_code

/-! ## ZFS pool classifier (`ZfsCommandExecutor::getPoolInfo`) -/

/-- The `struct ZfsPoolInfo` of `zfs_monitor.h`. -/
structure ZfsPoolInfo where
  name : Str
  health : ZfsPoolHealth
  scan_status : Str
  scrub_active : Bool
  resilver_active : Bool
  scrub_errors : Bool
  errors : Nat
  deriving DecidableEq, Repr

/-- The function `ZfsCommandExecutor::getPoolInfo`. `health_cmd_output` is the
output of `zpool list -H -o health` and `status_output` the output of
`zpool status` for the pool. -/
def getPoolInfo (pool_name health_cmd_output status_output : Str) : ZfsPoolInfo :=
  let info : ZfsPoolInfo :=
    { name := pool_name, health := .UNKNOWN, scan_status := [], scrub_active := false,
      resilver_active := false, scrub_errors := false, errors := 0 }
  let health_output := trimString health_cmd_output
  let info :=
    if health_output = "ONLINE".toList then { info with health := .ONLINE }
    else if health_output = "DEGRADED".toList then { info with health := .DEGRADED }
    else if health_output = "FAULTED".toList then { info with health := .FAULTED }
    else if health_output = "UNAVAIL".toList then { info with health := .UNAVAIL }
    else info
  if (find status_output "scrub in progress".toList).isSome then
    { info with scrub_active := true, health := .SCRUB_ACTIVE }
  else if (find status_output "resilver in progress".toList).isSome then
    { info with resilver_active := true, health := .RESILVER_ACTIVE }
  else if (find status_output "scrub repaired".toList).isSome &&
      (find status_output "with".toList).isSome &&
      (find status_output "errors".toList).isSome then
    let info := { info with scrub_errors := true }
    if info.health = .ONLINE then { info with health := .SCRUB_ERRORS } else info
  else info

/-! ## ZFS disk classifier (`ZfsMonitor::checkDiskZfsStatus`) -/

/-- The `enum class ZfsDiskStatus` of `zfs_monitor.h`. -/
inductive ZfsDiskStatus where
  | ONLINE
  | DEGRADED
  | FAULTED
  | NOT_IN_POOL
  | DEVICE_NOT_FOUND
  | UNKNOWN
  deriving DecidableEq, Repr

/-- The call `str.find_last_of(ch)`. -/
def find_last_of : Str → Char → Option Nat
  | [], _ => none
  | c :: cs, ch =>
      match find_last_of cs ch with
      | some i => some (i + 1)
      | none => if c = ch then some 0 else none

/-- The local `device_name` of `checkDiskZfsStatus`:
`device_path.substr(device_path.find_last_of('/') + 1)`. Without a slash the
position is `npos + 1`, which is 0 in `size_t`, and the name is the whole path. -/
def device_name (device_path : Str) : Str :=
  match find_last_of device_path '/' with
  | some i => device_path.drop (i + 1)
  | none => device_path

/-- The characters that `\s` matches in a `std::regex` over `char`: space, tab,
line feed, vertical tab, form feed, carriage return. -/
def isSpace (c : Char) : Bool :=
  c = ' ' || c = '\t' || c = '\n' || c = '\x0b' || c = '\x0c' || c = '\r'

/-- The characters that `\w` matches: letters, digits and the underscore. -/
def isWord (c : Char) : Bool :=
  c.isAlphanum || c = '_'

/-- A match of the regular expression `device_name + R"(\s+(\w+))"` that starts
at the first character of `s`, for a `device_name` of letters and digits (which
the expression then matches literally); the result is capture group 1. Both `+`
are greedy: `\s+` takes the whole run of white space, and giving part of it back
cannot help, since the character after a shorter run is white space and `\w`
does not match it; `\w+` takes the whole run of word characters. -/
def regex_match_at (device_name s : Str) : Option Str :=
  if device_name.isPrefixOf s then
    let rest := s.drop device_name.length
    let spaces := rest.takeWhile isSpace
    let word := (rest.dropWhile isSpace).takeWhile isWord
    if spaces ≠ [] ∧ word ≠ [] then some word else none
  else none

/-- The call `std::regex_search(status_output, match, status_regex)` of
`checkDiskZfsStatus`: the match at the lowest start position; the result is
`match[1]`, and `none` when the search fails. -/
def regex_search : Str → Str → Option Str
  | [], device_name => regex_match_at device_name []
  | c :: cs, device_name =>
      match regex_match_at device_name (c :: cs) with
      | some word => some word
      | none => regex_search cs device_name

/-- The loop `for (const auto& pool : pools)` of `checkDiskZfsStatus`, over the
texts that `getPoolStatus` returns for the pools, in pool order, and the
`return` after it. -/
def checkDiskZfsStatus_pools (device_name : Str) : List Str → ZfsDiskStatus
  | [] => .NOT_IN_POOL
  | status_output :: pools =>
      if (find status_output device_name).isSome then
        match regex_search status_output device_name with
        | some status =>
            if status = "ONLINE".toList then .ONLINE
            else if status = "DEGRADED".toList then .DEGRADED
            else if status = "FAULTED".toList ∨ status = "OFFLINE".toList ∨
                status = "UNAVAIL".toList then .FAULTED
            else .ONLINE
        | none => .ONLINE
      else checkDiskZfsStatus_pools device_name pools

/-- The function `ZfsMonitor::checkDiskZfsStatus`. `access_ok` says whether
`access(device_path, F_OK)` is 0, and `pool_status` lists the `zpool status`
text of each pool of `getPoolList()`, in order. -/
def checkDiskZfsStatus (device_path : Str) (access_ok : Bool) (pool_status : List Str) :
    ZfsDiskStatus :=
  if device_path.isEmpty then .DEVICE_NOT_FOUND
  else if !access_ok then .DEVICE_NOT_FOUND
  else checkDiskZfsStatus_pools (device_name device_path) pool_status

/-! ## Disk identity resolver (`DiskMapper`) -/

/-- The `enum class MappingMethod` of `DiskMapper`. -/
inductive MappingMethod where
  | ATA
  | HCTL
  | SERIAL
  deriving DecidableEq, Repr

/-- The data members of `class DiskMapper`. -/
structure DiskMapper where
  mapping_method_ : MappingMethod
  ata_map_ : List Str
  hctl_map_ : List Str
  serial_map_ : List Str
  detected_model_ : Str
  deriving DecidableEq, Repr

/-- The function `DiskMapper::initializeDefaultMappings`. -/
def initializeDefaultMappings (m : DiskMapper) : DiskMapper :=
  { m with
    ata_map_ := ["ata1".toList, "ata2".toList, "ata3".toList, "ata4".toList, "ata5".toList,
      "ata6".toList, "ata7".toList, "ata8".toList],
    hctl_map_ := ["0:0:0:0".toList, "1:0:0:0".toList, "2:0:0:0".toList, "3:0:0:0".toList,
      "4:0:0:0".toList, "5:0:0:0".toList, "6:0:0:0".toList, "7:0:0:0".toList] }

/-- The function `DiskMapper::applyModelSpecificMappings`. -/
def applyModelSpecificMappings (m : DiskMapper) : DiskMapper :=
  if (find m.detected_model_ "DXP6800".toList).isSome then
    { m with
      hctl_map_ := ["2:0:0:0".toList, "3:0:0:0".toList, "4:0:0:0".toList, "5:0:0:0".toList,
        "0:0:0:0".toList, "1:0:0:0".toList],
      ata_map_ := ["ata3".toList, "ata4".toList, "ata5".toList, "ata6".toList, "ata1".toList,
        "ata2".toList] }
  else m

/-- The function `DiskMapper::detectUgreenModel`; `dmidecode_output` is the output
of `dmidecode --string system-product-name`. -/
def detectUgreenModel (m : DiskMapper) (dmidecode_output : Str) : DiskMapper :=
  let m := { m with detected_model_ := trimString dmidecode_output }
  if !m.detected_model_.isEmpty then applyModelSpecificMappings m else m

/-- The constructor `DiskMapper::DiskMapper(MappingMethod method)`. -/
def DiskMapper.construct (method : MappingMethod) (dmidecode_output : Str) : DiskMapper :=
  detectUgreenModel
    (initializeDefaultMappings
      { mapping_method_ := method, ata_map_ := [], hctl_map_ := [], serial_map_ := [],
        detected_model_ := [] })
    dmidecode_output

/-- The function `DiskMapper::setMappingMethod`. -/
def setMappingMethod (m : DiskMapper) (method : MappingMethod) : DiskMapper :=
  { m with mapping_method_ := method }

/-- The function `DiskMapper::setSerialMap`. -/
def setSerialMap (m : DiskMapper) (serials : List Str) : DiskMapper :=
  { m with serial_map_ := serials }

/-- The lines that a loop `while (std::getline(iss, line))` reads from a text;
`cur` holds the characters of the line being read. A line ends at a line feed or
at the end of the text, and the end of the text right after a line feed starts no
further line. -/
def getlinesFrom (cur : Str) : Str → List Str
  | [] => if cur.isEmpty then [] else [cur]
  | c :: cs => if c = '\n' then cur :: getlinesFrom [] cs else getlinesFrom (cur ++ [c]) cs

/-- The lines of a text, as `std::getline` reads them. -/
def getlines (text : Str) : List Str :=
  getlinesFrom [] text

/-- The command that `getDiskDevice` runs to read the link of a block device. -/
def readlinkCommand (dev : Str) : Str :=
  "readlink /sys/block/".toList ++ dev ++ " 2>/dev/null".toList

/-- The loop `while (std::getline(iss, dev))` of the `ATA` case of
`getDiskDevice`, over the lines still to read; the result is `device`. -/
def getDiskDevice_scan (runCommand : Str → Str) (ata_name : Str) : List Str → Str
  | [] => []
  | dev :: lines =>
      let dev := trimString dev
      let link_output := runCommand (readlinkCommand dev)
      if (find link_output ata_name).isSome then "/dev/".toList ++ dev
      else getDiskDevice_scan runCommand ata_name lines

/-- The command of the `HCTL` case of `getDiskDevice`. -/
def hctlCommand (hctl : Str) : Str :=
  "lsblk -S -o HCTL,NAME 2>/dev/null | awk '$1==\"".toList ++ hctl ++
    "\" \x7bprint \"/dev/\"$2\x7d'".toList

/-- The command of the `SERIAL` case of `getDiskDevice`. -/
def serialCommand (serial : Str) : Str :=
  "lsblk -S -o SERIAL,NAME 2>/dev/null | awk '$1==\"".toList ++ serial ++
    "\" \x7bprint \"/dev/\"$2\x7d'".toList

/-- The function `DiskMapper::getDiskDevice`. `runCommand` gives the output of
each command, as `DiskMapper::runCommand` does; `static_cast<int>` of a size is
the size wrapped to 32 bits. -/
def getDiskDevice (m : DiskMapper) (runCommand : Str → Str) (disk_index : Int) : Str :=
  if disk_index < 0 ∨ disk_index ≥ 8 then []
  else
    match m.mapping_method_ with
    | .ATA =>
        if disk_index < wrapInt32 m.ata_map_.length then
          let ata_name := m.ata_map_.getD disk_index.toNat []
          let block_devices := runCommand "ls /sys/block/ 2>/dev/null | grep -E '^sd[a-z]+$'".toList
          getDiskDevice_scan runCommand ata_name (getlines block_devices)
        else []
    | .HCTL =>
        if disk_index < wrapInt32 m.hctl_map_.length then
          let hctl := m.hctl_map_.getD disk_index.toNat []
          trimString (runCommand (hctlCommand hctl))
        else []
    | .SERIAL =>
        if disk_index < wrapInt32 m.serial_map_.length then
          let serial := m.serial_map_.getD disk_index.toNat []
          trimString (runCommand (serialCommand serial))
        else []

/-- The call `getDiskDevice(disk_index)` as a step on the mapper: the data members
after the call and the value returned. No statement of the function assigns a
member. -/
def getDiskDevice_call (m : DiskMapper) (runCommand : Str → Str) (disk_index : Int) :
    DiskMapper × Str :=
  (m, getDiskDevice m runCommand disk_index)

/-! ## Disk monitoring cycle (`UgreenMonitor::monitorDisks`) -/

/-- The `struct LedColor` of `zfs_monitor.h`; a `uint8_t` is a `Nat`. -/
structure LedColor where
  r : Nat
  g : Nat
  b : Nat
  deriving DecidableEq, Repr

/-- The `struct UgreenMonitorConfig` of `ugreen_monitor.h`. -/
structure UgreenMonitorConfig where
  ugreen_leds_cli_path : Str
  monitor_interval : Int
  monitor_network : Bool
  monitor_disks : Bool
  turn_off_leds_on_exit : Bool
  network_interfaces : List Str
  network_led : Str
  ping_target : Str
  ping_count : Int
  ping_timeout : Int
  mapping_method : Str
  serial_map : List Str
  color_healthy : LedColor
  color_warning : LedColor
  color_critical : LedColor
  color_offline : LedColor
  color_disabled : LedColor
  deriving DecidableEq, Repr

/-- The constructor `UgreenMonitorConfig::UgreenMonitorConfig()`. -/
def UgreenMonitorConfig.construct : UgreenMonitorConfig :=
  { ugreen_leds_cli_path := "ugreen_leds_cli".toList,
    monitor_interval := 30,
    monitor_network := true,
    monitor_disks := true,
    turn_off_leds_on_exit := false,
    network_interfaces := [],
    network_led := "netdev".toList,
    ping_target := "8.8.8.8".toList,
    ping_count := 1,
    ping_timeout := 3,
    mapping_method := "ata".toList,
    serial_map := [],
    color_healthy := ⟨0, 255, 0⟩,
    color_warning := ⟨255, 255, 0⟩,
    color_critical := ⟨255, 0, 0⟩,
    color_offline := ⟨0, 0, 255⟩,
    color_disabled := ⟨0, 0, 0⟩ }

/-- One call `updateLed(led_name, color, brightness)`; the third argument is 255
when the caller leaves it out. -/
structure UpdateLedCall where
  led_name : Str
  color : LedColor
  brightness : Nat
  deriving DecidableEq, Repr

/-- The member `led_names_`, as the constructor `UgreenMonitor::UgreenMonitor()`
sets it. -/
def led_names : List Str :=
  ["disk1".toList, "disk2".toList, "disk3".toList, "disk4".toList, "disk5".toList,
    "disk6".toList, "disk7".toList, "disk8".toList]

/-- The body of the loop of `UgreenMonitor::monitorDisks` for the index `i` and
the name `led_names_[i]`: the call of `updateLed` it makes. `getDiskDevice` is
`disk_mapper_->getDiskDevice` and `checkSmartStatus` is
`smart_monitor_->checkSmartStatus`, as functions of their argument. -/
def monitorDisks_slot (config : UgreenMonitorConfig) (getDiskDevice : Int → Str)
    (checkSmartStatus : Str → SmartStatus) (i : Nat) (led_name : Str) : UpdateLedCall :=
  let device := getDiskDevice (wrapInt32 (i : Int))
  if device.isEmpty then
    { led_name := led_name, color := config.color_disabled, brightness := 0 }
  else
    let status := checkSmartStatus device
    let color :=
      match status with
      | .HEALTHY => config.color_healthy
      | .WARNING => config.color_warning
      | .CRITICAL => config.color_critical
      | .UNAVAILABLE => config.color_offline
      | .DEVICE_NOT_FOUND => config.color_disabled
    { led_name := led_name, color := color, brightness := 255 }

/-- The loop `for (size_t i = 0; i < led_names_.size(); ++i)` of `monitorDisks`
from the index `i` on, over the names still to visit. -/
def monitorDisks_from (config : UgreenMonitorConfig) (getDiskDevice : Int → Str)
    (checkSmartStatus : Str → SmartStatus) (i : Nat) : List Str → List UpdateLedCall
  | [] => []
  | led_name :: rest =>
      monitorDisks_slot config getDiskDevice checkSmartStatus i led_name ::
        monitorDisks_from config getDiskDevice checkSmartStatus (i + 1) rest

/-- The function `UgreenMonitor::monitorDisks`: the calls of `updateLed` of one
cycle, in order. -/
def monitorDisks (config : UgreenMonitorConfig) (getDiskDevice : Int → Str)
    (checkSmartStatus : Str → SmartStatus) : List UpdateLedCall :=
  monitorDisks_from config getDiskDevice checkSmartStatus 0 led_names

/-! ## Command execution (`CommandExecutor`) -/

/-- The macro `WEXITSTATUS` of `<sys/wait.h>`: bits 8..15 of the wait status. -/
def WEXITSTATUS (status : Int) : Int :=
  status / 256 % 256

/-- The function `CommandExecutor::runCommand` called with a pointer for the exit
code: the text it returns and the value it stores through the pointer. `pipe` is
`none` when `popen` returns a null pointer, and otherwise the text read from the
pipe and the status that `pclose` returns. -/
def CommandExecutor.runCommand (pipe : Option (Str × Int)) : Str × Int :=
  match pipe with
  | none => ([], -1)
  | some (result, status) => (result, WEXITSTATUS status)

/-- The function `CommandExecutor::executeWithExitCode`: the exit code it
returns and the text it stores in `output`. -/
def CommandExecutor.executeWithExitCode (pipe : Option (Str × Int)) : Int × Str :=
  let r := CommandExecutor.runCommand pipe
  (r.2, r.1)

/-! ## Scrub and resilver indicator (`ZfsMonitor::monitorScrubResilver`) -/

/-- The `struct ZfsMonitorConfig` of `zfs_monitor.h`. -/
structure ZfsMonitorConfig where
  ugreen_leds_cli_path : Str
  monitor_interval : Int
  monitor_zfs_pools : Bool
  monitor_zfs_disks : Bool
  monitor_scrub_status : Bool
  turn_off_leds_on_exit : Bool
  zfs_pools : List Str
  pool_status_led : Str
  network_led : Str
  mapping_method : Str
  serial_map : List Str
  color_online : LedColor
  color_degraded : LedColor
  color_faulted : LedColor
  color_unavail : LedColor
  color_scrub_active : LedColor
  color_resilver : LedColor
  color_scrub_progress : LedColor
  color_offline : LedColor
  deriving DecidableEq, Repr

/-- The constructor `ZfsMonitorConfig::ZfsMonitorConfig()`. -/
def ZfsMonitorConfig.construct : ZfsMonitorConfig :=
  { ugreen_leds_cli_path := "ugreen_leds_cli".toList,
    monitor_interval := 60,
    monitor_zfs_pools := true,
    monitor_zfs_disks := true,
    monitor_scrub_status := true,
    turn_off_leds_on_exit := false,
    zfs_pools := [],
    pool_status_led := "power".toList,
    network_led := "netdev".toList,
    mapping_method := "ata".toList,
    serial_map := [],
    color_online := ⟨0, 255, 0⟩,
    color_degraded := ⟨255, 255, 0⟩,
    color_faulted := ⟨255, 0, 0⟩,
    color_unavail := ⟨0, 0, 255⟩,
    color_scrub_active := ⟨255, 128, 0⟩,
    color_resilver := ⟨0, 255, 255⟩,
    color_scrub_progress := ⟨128, 0, 255⟩,
    color_offline := ⟨64, 64, 64⟩ }

/-- The locals `scrub_active`, `resilver_active` and `scrub_errors` of
`monitorScrubResilver`. -/
structure ScrubFlags where
  scrub_active : Bool
  resilver_active : Bool
  scrub_errors : Bool
  deriving DecidableEq, Repr

/-- One iteration of the loop `for (const auto& pool : pools)` of
`monitorScrubResilver`, on the `ZfsPoolInfo` of the pool. -/
def monitorScrubResilver_step (f : ScrubFlags) (info : ZfsPoolInfo) : ScrubFlags :=
  let f := if info.scrub_active then { f with scrub_active := true } else f
  let f := if info.resilver_active then { f with resilver_active := true } else f
  if info.scrub_errors then { f with scrub_errors := true } else f

/-- The function `ZfsMonitor::monitorScrubResilver`: the call of `updateLed` it
makes, and `none` when it returns without one. `infos` lists what `getPoolInfo`
returns for the pools, in pool order. -/
def monitorScrubResilver (config : ZfsMonitorConfig) (infos : List ZfsPoolInfo) :
    Option UpdateLedCall :=
  if !config.monitor_scrub_status then none
  else
    let f := infos.foldl monitorScrubResilver_step ⟨false, false, false⟩
    let color :=
      if f.resilver_active then config.color_resilver
      else if f.scrub_active then config.color_scrub_active
      else if f.scrub_errors then config.color_scrub_progress
      else LedColor.mk config.color_online.r config.color_online.g config.color_online.b
    some { led_name := config.network_led, color := color,
           brightness := if f.scrub_active || f.resilver_active then 255 else 128 }

/-! ## LED update (`UgreenMonitor::updateLed`, `ZfsMonitor::updateLed`) -/

/-- Modelled from the spec: the type `ugreen_leds_t::led_type_t` of the header
`ugreen_leds.h`, which is not among the sources. Its enumerators are the ten that
the source names, one for each indicator `power`, `network`, `disk1`..`disk8` of
the specification, taken to be distinct values. -/
inductive led_type_t where
  | power
  | netdev
  | disk1
  | disk2
  | disk3
  | disk4
  | disk5
  | disk6
  | disk7
  | disk8
  deriving DecidableEq, Repr

/-- A call on the LED controller: `set_rgb(led, r, g, b)`,
`set_brightness(led, brightness)` or `set_onoff(led, value)`. -/
inductive LedWrite where
  | set_rgb (led : led_type_t) (r g b : Nat)
  | set_brightness (led : led_type_t) (brightness : Nat)
  | set_onoff (led : led_type_t) (value : Nat)
  deriving DecidableEq, Repr

/-- The local `led_type` of `updateLed` after the chain of comparisons of
`led_name`; the two classes have the same chain. -/
def updateLed_led_type (led_name : Str) : led_type_t :=
  if led_name = "power".toList then .power
  else if led_name = "netdev".toList then .netdev
  else if led_name = "disk1".toList then .disk1
  else if led_name = "disk2".toList then .disk2
  else if led_name = "disk3".toList then .disk3
  else if led_name = "disk4".toList then .disk4
  else if led_name = "disk5".toList then .disk5
  else if led_name = "disk6".toList then .disk6
  else if led_name = "disk7".toList then .disk7
  else if led_name = "disk8".toList then .disk8
  else .power

/-- The function `updateLed` of `UgreenMonitor` and of `ZfsMonitor` (the same
body): the value returned and the calls made on the controller, in order.
`led_available` is the member `led_available_`, `led_controller` says whether
`led_controller_` is set, and `set_rgb_result` is what `set_rgb` returns; the
calls on the controller are taken not to throw. -/
def updateLed (led_available led_controller : Bool) (set_rgb_result : Int) (led_name : Str)
    (color : LedColor) (brightness : Nat) : Bool × List LedWrite :=
  if !led_available || !led_controller then (false, [])
  else
    let led_type := updateLed_led_type led_name
    if set_rgb_result = 0 then
      (true, [.set_rgb led_type color.r color.g color.b, .set_brightness led_type brightness,
        .set_onoff led_type 1])
    else (false, [.set_rgb led_type color.r color.g color.b])

/-! ## Configuration files (`parseConfigLine`, `loadConfig`) -/

/-- The tokens that a loop `while (std::getline(ss, token, delimiter))` reads
from a text; `cur` holds the characters of the token being read. -/
def getlineSplitFrom (delimiter : Char) (cur : Str) : Str → List Str
  | [] => if cur.isEmpty then [] else [cur]
  | c :: cs =>
      if c = delimiter then cur :: getlineSplitFrom delimiter [] cs
      else getlineSplitFrom delimiter (cur ++ [c]) cs

/-- The function `splitString` of `zfs_monitor.cpp` (the same body as
`StringUtils::split`): the trimmed tokens that are not empty. -/
def splitString (str : Str) (delimiter : Char) : List Str :=
  ((getlineSplitFrom delimiter [] str).map trimString).filter (fun token => !token.isEmpty)

/-- The number that a string of decimal digits writes. -/
def digitsValue (digits : Str) : Nat :=
  digits.foldl (fun acc c => 10 * acc + (c.toNat - 48)) 0

/-- The number that `strtol(str, nullptr, 10)` reads before any range check:
leading white space, an optional sign, then decimal digits; `none` without a
digit. -/
def readDecimal (str : Str) : Option Int :=
  let s := str.dropWhile isSpace
  let negative := s.head? = some '-'
  let s := if s.head? = some '-' ∨ s.head? = some '+' then s.drop 1 else s
  let digits := s.takeWhile Char.isDigit
  if digits.isEmpty then none
  else if negative then some (-(digitsValue digits : Int))
  else some (digitsValue digits : Int)

/-- The call `std::stoi(str)`: `none` when it throws, `std::invalid_argument`
without a digit and `std::out_of_range` outside the range of `int`. -/
def stoi (str : Str) : Option Int :=
  match readDecimal str with
  | none => none
  | some value => if value < -(2 ^ 31) ∨ value > 2 ^ 31 - 1 then none else some value

/-- The call `std::atoi(str)`, as `(int) strtol(str, nullptr, 10)`: 0 without a
digit, the value clamped to the range of `long` and then cut to an `int`. -/
def atoi (str : Str) : Int :=
  match readDecimal str with
  | none => 0
  | some value => wrapInt32 (max (-(2 ^ 63)) (min value (2 ^ 63 - 1)))

/-- The colour that the two functions `stringToColor` build, and `none` when a
call of `std::stoi` throws; `static_cast<uint8_t>` keeps the value modulo 256. -/
def stringToColor_components (color_str : Str) : Option LedColor :=
  let components := splitString color_str ' '
  if components.length ≥ 3 then
    match stoi (components.getD 0 []), stoi (components.getD 1 []),
        stoi (components.getD 2 []) with
    | some r, some g, some b => some ⟨(r % 256).toNat, (g % 256).toNat, (b % 256).toNat⟩
    | _, _, _ => none
  else some ⟨0, 0, 0⟩

/-- The function `ZfsMonitor::stringToColor`; `none` when it throws. -/
def ZfsMonitor.stringToColor (color_str : Str) : Option LedColor :=
  stringToColor_components color_str

/-- The function `UgreenMonitor::stringToColor`, which catches the exception and
returns black. -/
def UgreenMonitor.stringToColor (color_str : Str) : LedColor :=
  (stringToColor_components color_str).getD ⟨0, 0, 0⟩

/-- The first part of the two functions `parseConfigLine`: the `key` and the
`value` of a line, and `none` when the function returns before it looks at the
key (empty line, comment, no `=`). -/
def parseConfigLine_keyValue (line : Str) : Option (Str × Str) :=
  let trimmed := trimString line
  if trimmed.isEmpty ∨ trimmed.head? = some '#' then none
  else
    match find trimmed ['='] with
    | none => none
    | some equals_pos =>
        let key := trimString (substr trimmed 0 equals_pos)
        let value := trimString (trimmed.drop (equals_pos + 1))
        let value :=
          if value.length ≥ 2 ∧ value.head? = some '"' ∧ value.getLast? = some '"' then
            substr value 1 (value.length - 2)
          else value
        some (key, value)

/-- The function `ZfsMonitor::parseConfigLine` on the member `config_`; `none`
when `std::stoi` throws, which the function does not catch. -/
def ZfsMonitor.parseConfigLine (config_ : ZfsMonitorConfig) (line : Str) :
    Option ZfsMonitorConfig :=
  match parseConfigLine_keyValue line with
  | none => some config_
  | some (key, value) =>
      if key = "UGREEN_LEDS_CLI".toList then some { config_ with ugreen_leds_cli_path := value }
      else if key = "MONITOR_INTERVAL".toList then
        (stoi value).map (fun n => { config_ with monitor_interval := n })
      else if key = "MONITOR_ZFS_POOLS".toList then
        some { config_ with monitor_zfs_pools := decide (value = "true".toList) }
      else if key = "MONITOR_ZFS_DISKS".toList then
        some { config_ with monitor_zfs_disks := decide (value = "true".toList) }
      else if key = "MONITOR_SCRUB_STATUS".toList then
        some { config_ with monitor_scrub_status := decide (value = "true".toList) }
      else if key = "ZFS_POOLS".toList then
        some { config_ with zfs_pools := splitString value ' ' }
      else if key = "MAPPING_METHOD".toList then some { config_ with mapping_method := value }
      else if key = "COLOR_ONLINE".toList then
        (ZfsMonitor.stringToColor value).map (fun c => { config_ with color_online := c })
      else if key = "COLOR_DEGRADED".toList then
        (ZfsMonitor.stringToColor value).map (fun c => { config_ with color_degraded := c })
      else if key = "COLOR_FAULTED".toList then
        (ZfsMonitor.stringToColor value).map (fun c => { config_ with color_faulted := c })
      else some config_

/-- The loop `while (std::getline(file, line)) parseConfigLine(line)` of
`ZfsMonitor::loadConfig`, over the lines still to read. -/
def ZfsMonitor.loadConfig_lines (config_ : ZfsMonitorConfig) :
    List Str → Option ZfsMonitorConfig
  | [] => some config_
  | line :: lines =>
      match ZfsMonitor.parseConfigLine config_ line with
      | none => none
      | some c => ZfsMonitor.loadConfig_lines c lines

/-- The function `ZfsMonitor::loadConfig`: the member `config_` after the call
and the value returned, and `none` when a line throws. `file` is the text of the
file at `config_path`, and `none` when the file cannot be opened. -/
def ZfsMonitor.loadConfig (config_ : ZfsMonitorConfig) (file : Option Str) :
    Option (ZfsMonitorConfig × Bool) :=
  match file with
  | none => some (config_, false)
  | some text => (ZfsMonitor.loadConfig_lines config_ (getlines text)).map (fun c => (c, true))

/-- The function `UgreenMonitor::parseConfigLine` on the member `config_`; an
invalid `MONITOR_INTERVAL` is caught and leaves the interval as it was. -/
def UgreenMonitor.parseConfigLine (config_ : UgreenMonitorConfig) (line : Str) :
    UgreenMonitorConfig :=
  match parseConfigLine_keyValue line with
  | none => config_
  | some (key, value) =>
      if key = "UGREEN_LEDS_CLI".toList then { config_ with ugreen_leds_cli_path := value }
      else if key = "MONITOR_INTERVAL".toList then
        match stoi value with
        | some n => { config_ with monitor_interval := n }
        | none => config_
      else if key = "MONITOR_NETWORK".toList then
        { config_ with monitor_network := decide (value = "true".toList) }
      else if key = "MONITOR_DISKS".toList then
        { config_ with monitor_disks := decide (value = "true".toList) }
      else if key = "NETWORK_INTERFACES".toList then
        { config_ with network_interfaces := splitString value ' ' }
      else if key = "PING_TARGET".toList then { config_ with ping_target := value }
      else if key = "MAPPING_METHOD".toList then { config_ with mapping_method := value }
      else if key = "COLOR_HEALTHY".toList then
        { config_ with color_healthy := UgreenMonitor.stringToColor value }
      else if key = "COLOR_WARNING".toList then
        { config_ with color_warning := UgreenMonitor.stringToColor value }
      else if key = "COLOR_CRITICAL".toList then
        { config_ with color_critical := UgreenMonitor.stringToColor value }
      else if key = "COLOR_OFFLINE".toList then
        { config_ with color_offline := UgreenMonitor.stringToColor value }
      else config_

/-- The function `UgreenMonitor::loadConfig`: the member `config_` after the call
and the value returned. `file` is the text of the file at `config_path`, and
`none` when the file cannot be opened. -/
def UgreenMonitor.loadConfig (config_ : UgreenMonitorConfig) (file : Option Str) :
    UgreenMonitorConfig × Bool :=
  match file with
  | none => (config_, false)
  | some text => ((getlines text).foldl UgreenMonitor.parseConfigLine config_, true)

/-! ## Command lines (`ugreen_zfs_monitor.cpp`, `ugreen_monitor_main.cpp`) -/

/-- The arguments that `parseArguments` of `ugreen_zfs_monitor.cpp` fills. -/
structure ZfsArguments where
  config : ZfsMonitorConfig
  test_mode : Bool
  show_status : Bool
  config_file : Str
  deriving DecidableEq, Repr

/-- The `switch (c)` of `parseArguments` for one option that `getopt_long`
returns, with its argument `optarg`; `none` when the function returns false. -/
def parseArguments_option (a : ZfsArguments) (c : Char) (optarg : Str) : Option ZfsArguments :=
  if c = 'h' then none
  else if c = 'i' then
    match stoi optarg with
    | none => none
    | some n => if n < 1 then none else some { a with config := { a.config with monitor_interval := n } }
  else if c = 'p' then
    some { a with config := { a.config with monitor_zfs_pools := true, monitor_zfs_disks := false } }
  else if c = 'd' then
    some { a with config := { a.config with monitor_zfs_pools := false, monitor_zfs_disks := true } }
  else if c = 't' then some { a with test_mode := true }
  else if c = 's' then some { a with show_status := true }
  else if c = 'c' then some { a with config_file := optarg }
  else none

/-- The loop `while ((c = getopt_long(...)) != -1)` of `parseArguments`, over the
options still to come. -/
def parseArguments_options : ZfsArguments → List (Char × Str) → Option ZfsArguments
  | a, [] => some a
  | a, (c, optarg) :: options =>
      match parseArguments_option a c optarg with
      | none => none
      | some a2 => parseArguments_options a2 options

/-- The function `parseArguments` of `ugreen_zfs_monitor.cpp`: the arguments it
fills when it returns true, and `none` when it returns false. `options` lists the
options as `getopt_long` returns them, and `extra_arguments` says whether
`optind < argc` after the loop. -/
def parseArguments (options : List (Char × Str)) (extra_arguments : Bool) (a : ZfsArguments) :
    Option ZfsArguments :=
  match parseArguments_options a options with
  | none => none
  | some a2 => if extra_arguments then none else some a2

/-- The configuration that `main` of `ugreen_zfs_monitor.cpp` leaves in the
monitor when it reaches `monitor->initialize()`, and `none` when it returns
before. `is_root` and `zfs_available` are the results of `checkRootPrivileges`
and `checkZfsAvailability`, and `read_file` gives the text of the file at a path,
`none` when it cannot be opened. -/
def ugreen_zfs_monitor_main_config (options : List (Char × Str)) (extra_arguments : Bool)
    (is_root zfs_available : Bool) (read_file : Str → Option Str) : Option ZfsMonitorConfig :=
  match parseArguments options extra_arguments
      { config := ZfsMonitorConfig.construct, test_mode := false, show_status := false,
        config_file := [] } with
  | none => none
  | some a =>
      if !is_root then none
      else if !zfs_available then none
      else
        let config_ := ZfsMonitorConfig.construct
        let config_path :=
          if a.config_file.isEmpty then "/etc/ugreen-zfs-monitor.conf".toList else a.config_file
        match ZfsMonitor.loadConfig config_ (read_file config_path) with
        | none => none
        | some _loaded => some a.config

/-- The locals of `main` of `ugreen_monitor_main.cpp` that the option loop
sets. -/
structure UgreenArguments where
  test_mode : Bool
  network_only : Bool
  disks_only : Bool
  show_status : Bool
  show_help : Bool
  show_version : Bool
  monitor_interval : Int
  config_file : Str
  deriving DecidableEq, Repr

/-- The `switch (c)` of `main` of `ugreen_monitor_main.cpp` for one option that
`getopt_long` returns; `none` when `main` returns 1. -/
def ugreen_monitor_main_option (a : UgreenArguments) (c : Char) (optarg : Str) :
    Option UgreenArguments :=
  if c = 'h' then some { a with show_help := true }
  else if c = 'i' then
    if atoi optarg ≤ 0 then none else some { a with monitor_interval := atoi optarg }
  else if c = 'n' then some { a with network_only := true }
  else if c = 'd' then some { a with disks_only := true }
  else if c = 't' then some { a with test_mode := true }
  else if c = 'c' then some { a with config_file := optarg }
  else if c = 's' then some { a with show_status := true }
  else if c = 'v' then some { a with show_version := true }
  else if c = '?' then none
  else some a

/-- The loop `while ((c = getopt_long(...)) != -1)` of `main` of
`ugreen_monitor_main.cpp`, over the options still to come. -/
def ugreen_monitor_main_options : UgreenArguments → List (Char × Str) → Option UgreenArguments
  | a, [] => some a
  | a, (c, optarg) :: options =>
      match ugreen_monitor_main_option a c optarg with
      | none => none
      | some a2 => ugreen_monitor_main_options a2 options

/-- The configuration that `main` of `ugreen_monitor_main.cpp` passes to
`setConfig` before `monitor_instance->initialize()`, and `none` when it returns
before. `is_root` is the result of `SystemUtils::isRoot()`, and `read_file` gives
the text of the file at a path, `none` when it cannot be opened. -/
def ugreen_monitor_main_config (options : List (Char × Str)) (is_root : Bool)
    (read_file : Str → Option Str) : Option UgreenMonitorConfig :=
  match ugreen_monitor_main_options
      { test_mode := false, network_only := false, disks_only := false, show_status := false,
        show_help := false, show_version := false, monitor_interval := 30, config_file := [] }
      options with
  | none => none
  | some a =>
      if a.show_help then none
      else if a.show_version then none
      else if !is_root then none
      else if a.network_only && a.disks_only then none
      else
        let config_path :=
          if a.config_file.isEmpty then "/etc/ugreen-monitor.conf".toList else a.config_file
        let config_ := (UgreenMonitor.loadConfig UgreenMonitorConfig.construct
          (read_file config_path)).1
        let config := { config_ with monitor_interval := a.monitor_interval }
        let config :=
          if a.network_only then { config with monitor_network := true, monitor_disks := false }
          else if a.disks_only then
            { config with monitor_network := false, monitor_disks := true }
          else config
        some config

/-! ## Theorems -/

/-- Once the accumulator is `FAULTED`, no later pool changes it. -/
theorem foldl_step_FAULTED (l : List ZfsPoolHealth) :
    l.foldl monitorZfsPools_step .FAULTED = .FAULTED := by
  induction l with
  | nil => rfl
  | cons h t ih =>
    have hs : monitorZfsPools_step .FAULTED h = .FAULTED := by
      cases h <;> rfl
    simp only [List.foldl_cons, hs, ih]

/-- C1, at the input of the claim: the pool healths `[ONLINE, SCRUB_ACTIVE, DEGRADED]`
aggregate to `SCRUB_ACTIVE`, not to `DEGRADED`, while `[ONLINE, DEGRADED, SCRUB_ACTIVE]`
aggregates to `DEGRADED`: a `DEGRADED` pool met after a scrubbing pool does not
override it, since `SCRUB_ACTIVE` is 5 and the guard tests `overall_status < 1`. -/
theorem C1_scrub_then_degraded :
    monitorZfsPools_overall [.ONLINE, .SCRUB_ACTIVE, .DEGRADED] = .SCRUB_ACTIVE ∧
    monitorZfsPools_overall [.ONLINE, .DEGRADED, .SCRUB_ACTIVE] = .DEGRADED := by
  decide

/-- C2: a list of pool healths with a `FAULTED` entry aggregates to `FAULTED`,
wherever the entry is and whatever follows it. -/
theorem C2_faulted_absolute (healths : List ZfsPoolHealth)
    (h : ZfsPoolHealth.FAULTED ∈ healths) :
    monitorZfsPools_overall healths = .FAULTED := by
  obtain ⟨before, after, rfl⟩ := List.append_of_mem h
  unfold monitorZfsPools_overall
  rw [List.foldl_append, List.foldl_cons]
  exact foldl_step_FAULTED after

/-- C2 at `[DEGRADED, FAULTED, ONLINE, SCRUB_ACTIVE]`. -/
theorem C2_faulted_absolute_witness :
    ZfsPoolHealth.FAULTED ∈
        [ZfsPoolHealth.DEGRADED, ZfsPoolHealth.FAULTED, ZfsPoolHealth.ONLINE,
          ZfsPoolHealth.SCRUB_ACTIVE] ∧
      monitorZfsPools_overall
        [ZfsPoolHealth.DEGRADED, ZfsPoolHealth.FAULTED, ZfsPoolHealth.ONLINE,
          ZfsPoolHealth.SCRUB_ACTIVE] = ZfsPoolHealth.FAULTED :=
  ⟨by decide, C2_faulted_absolute _ (by decide)⟩

/-! ### `std::string` operations -/

/-- The search `find` succeeds exactly when `sub` is a contiguous part of `str`. -/
theorem find_isSome_iff (str sub : Str) :
    (find str sub).isSome = true ↔ List.IsInfix sub str := by
  induction str with
  | nil =>
    simp only [find, List.infix_nil]
    cases sub with
    | nil => simp
    | cons a t => simp [List.isPrefixOf]
  | cons c cs ih =>
    rw [List.infix_cons_iff, ← ih, ← List.isPrefixOf_iff_prefix]
    simp only [find]
    cases hp : sub.isPrefixOf (c :: cs) with
    | true => simp
    | false => simp

/-- The function `contains` decides whether `substring` is a contiguous part of
`str`. -/
theorem contains_iff (str substring : Str) :
    contains str substring = true ↔ List.IsInfix substring str :=
  find_isSome_iff str substring

/-- Past a run of characters of `chars`, `find_first_not_of` stops at the first
character outside `chars`. -/
theorem find_first_not_of_append (chars ws1 : Str) (c : Char) (r : Str)
    (h1 : ∀ x ∈ ws1, x ∈ chars) (hc : c ∉ chars) :
    find_first_not_of (ws1 ++ c :: r) chars = some ws1.length := by
  induction ws1 with
  | nil => simp [find_first_not_of, hc]
  | cons a t ih =>
    have ha : a ∈ chars := h1 a (List.mem_cons_self a t)
    have ht := ih (fun x hx => h1 x (List.mem_cons_of_mem a hx))
    simp [find_first_not_of, ha, ht]

/-- On a string of characters of `chars`, `find_last_not_of` finds nothing. -/
theorem find_last_not_of_all (chars ws2 : Str) (h2 : ∀ x ∈ ws2, x ∈ chars) :
    find_last_not_of ws2 chars = none := by
  induction ws2 with
  | nil => rfl
  | cons a t ih =>
    have ha : a ∈ chars := h2 a (List.mem_cons_self a t)
    have ht := ih (fun x hx => h2 x (List.mem_cons_of_mem a hx))
    simp [find_last_not_of, ha, ht]

/-- Before a run of characters of `chars` that ends the string,
`find_last_not_of` stops at the last character outside `chars`. -/
theorem find_last_not_of_append (chars pre : Str) (c : Char) (ws2 : Str)
    (hc : c ∉ chars) (h2 : ∀ x ∈ ws2, x ∈ chars) :
    find_last_not_of (pre ++ c :: ws2) chars = some pre.length := by
  induction pre with
  | nil => simp [find_last_not_of, find_last_not_of_all chars ws2 h2, hc]
  | cons a t ih => simp [find_last_not_of, ih]

/-- The function `trimString` removes the white space around a token that starts
and ends with a character other than space, tab, line feed and carriage return. -/
theorem trimString_pad (ws1 tok ws2 : Str)
    (h1 : ∀ x ∈ ws1, x ∈ " \t\n\r".toList) (h2 : ∀ x ∈ ws2, x ∈ " \t\n\r".toList)
    (hne : tok ≠ []) (hhead : tok.head hne ∉ " \t\n\r".toList)
    (hlast : tok.getLast hne ∉ " \t\n\r".toList) :
    trimString (ws1 ++ tok ++ ws2) = tok := by
  have hfirst : find_first_not_of (ws1 ++ tok ++ ws2) " \t\n\r".toList = some ws1.length := by
    cases tok with
    | nil => exact absurd rfl hne
    | cons a mid =>
      have := find_first_not_of_append " \t\n\r".toList ws1 a (mid ++ ws2) h1 hhead
      simpa using this
  have hlastpos : find_last_not_of (ws1 ++ tok ++ ws2) " \t\n\r".toList
      = some (ws1.length + (tok.length - 1)) := by
    have hsplit : tok = tok.dropLast ++ [tok.getLast hne] :=
      (List.dropLast_append_getLast hne).symm
    have := find_last_not_of_append " \t\n\r".toList (ws1 ++ tok.dropLast) (tok.getLast hne)
      ws2 hlast h2
    have hrw : ws1 ++ tok.dropLast ++ tok.getLast hne :: ws2 = ws1 ++ tok ++ ws2 := by
      conv_rhs => rw [hsplit]
      simp
    rw [hrw] at this
    rw [this]
    simp
  have hlen : 0 < tok.length := List.length_pos.mpr hne
  unfold trimString
  rw [hfirst]
  simp only [hlastpos, Option.getD_some, substr]
  have hcount : ws1.length + (tok.length - 1) - ws1.length + 1 = tok.length := by omega
  rw [hcount, List.append_assoc, List.drop_left, List.take_left]

/-! ### Network classifier -/

/-- An `int` increment below `2 ^ 31` does not wrap. -/
theorem wrapInt32_succ (x : Int) (h0 : 0 ≤ x) (h1 : x + 1 < 2 ^ 31) :
    wrapInt32 (x + 1) = x + 1 := by
  unfold wrapInt32
  norm_num at h1 ⊢
  omega

/-- What the loop of `checkNetworkStatus` computes, from any counters. -/
theorem checkNetworkStatus_foldl (l : List NetworkInterface) (c : NetworkCounters)
    (h0 : 0 ≤ c.up_interfaces) (hlen : c.up_interfaces + l.length < 2 ^ 31) :
    (l.foldl checkNetworkStatus_step c).up_interfaces
        = c.up_interfaces + (l.countP (fun i => i.is_up) : Nat) ∧
      (l.foldl checkNetworkStatus_step c).bridge_up
        = (c.bridge_up || l.any (fun i => i.is_up && i.is_bridge)) ∧
      (l.foldl checkNetworkStatus_step c).physical_up
        = (c.physical_up || l.any (fun i => i.is_up && !i.is_bridge)) := by
  induction l generalizing c with
  | nil => simp
  | cons a t ih =>
    have hl : ((a :: t).length : Int) = (t.length : Int) + 1 := by simp
    rw [hl] at hlen
    have hw : wrapInt32 (c.up_interfaces + 1) = c.up_interfaces + 1 :=
      wrapInt32_succ _ h0 (by have := Int.natCast_nonneg t.length; omega)
    rw [List.foldl_cons]
    cases hup : a.is_up with
    | false =>
      have hs : checkNetworkStatus_step c a = c := by simp [checkNetworkStatus_step, hup]
      rw [hs]
      obtain ⟨h1, h2, h3⟩ := ih c h0 (by omega)
      refine ⟨?_, ?_, ?_⟩
      · rw [h1]; simp [List.countP_cons, hup]
      · rw [h2]; simp [hup]
      · rw [h3]; simp [hup]
    | true =>
      cases hbr : a.is_bridge with
      | true =>
        have hs : checkNetworkStatus_step c a
            = { c with up_interfaces := c.up_interfaces + 1, bridge_up := true } := by
          simp [checkNetworkStatus_step, hup, hbr, hw]
        rw [hs]
        obtain ⟨h1, h2, h3⟩ :=
          ih { c with up_interfaces := c.up_interfaces + 1, bridge_up := true }
            (by simp only; omega) (by simp only; omega)
        refine ⟨?_, ?_, ?_⟩
        · rw [h1]; simp [List.countP_cons, hup]; omega
        · rw [h2]; simp [hup, hbr]
        · rw [h3]; simp [hup, hbr]
      | false =>
        have hs : checkNetworkStatus_step c a
            = { c with up_interfaces := c.up_interfaces + 1, physical_up := true } := by
          simp [checkNetworkStatus_step, hup, hbr, hw]
        rw [hs]
        obtain ⟨h1, h2, h3⟩ :=
          ih { c with up_interfaces := c.up_interfaces + 1, physical_up := true }
            (by simp only; omega) (by simp only; omega)
        refine ⟨?_, ?_, ?_⟩
        · rw [h1]; simp [List.countP_cons, hup]; omega
        · rw [h2]; simp [hup, hbr]
        · rw [h3]; simp [hup, hbr]

/-- The result of `checkNetworkStatus` with a ping target, as a function of the
interface list and of the probe outcome. -/
theorem checkNetworkStatus_eq (interfaces : List NetworkInterface) (ping_target : Str)
    (probe : Bool) (htarget : ping_target ≠ []) (hlen : interfaces.length < 2 ^ 31) :
    checkNetworkStatus interfaces ping_target probe =
      if interfaces = [] then NetworkStatus.UNKNOWN
      else if interfaces.any (fun i => i.is_up && i.is_bridge) ||
          (interfaces.any (fun i => i.is_up && !i.is_bridge) && probe) then
        NetworkStatus.HEALTHY
      else if interfaces.any (fun i => i.is_up) then NetworkStatus.WARNING
      else NetworkStatus.CRITICAL := by
  obtain ⟨h1, h2, h3⟩ := checkNetworkStatus_foldl interfaces ⟨0, false, false⟩
    (le_refl _) (by simp only [zero_add]; exact_mod_cast hlen)
  have hup : (interfaces.foldl checkNetworkStatus_step ⟨0, false, false⟩).up_interfaces > 0
      ↔ interfaces.any (fun i => i.is_up) = true := by
    rw [h1]
    simp only [zero_add, gt_iff_lt, Nat.cast_pos, List.countP_pos_iff, List.any_eq_true]
  have hphys : interfaces.any (fun i => i.is_up && !i.is_bridge) = true →
      interfaces.any (fun i => i.is_up) = true := by
    simp only [List.any_eq_true, Bool.and_eq_true]
    rintro ⟨x, hx, hxu, -⟩
    exact ⟨x, hx, hxu⟩
  have htgt : ping_target.isEmpty = false := by
    cases ping_target with
    | nil => exact absurd rfl htarget
    | cons a t => rfl
  unfold checkNetworkStatus
  by_cases hnil : interfaces = []
  · subst hnil; rfl
  · have hne : interfaces.isEmpty = false := by
      cases interfaces with
      | nil => exact absurd rfl hnil
      | cons a t => rfl
    simp only [hne, hnil, if_false, Bool.false_eq_true]
    simp only [h2, h3, Bool.false_or, htgt, Bool.not_false, Bool.and_true]
    by_cases hu : interfaces.any (fun i => i.is_up) = true
    · have hu2 := hup.mpr hu
      simp only [hu2, decide_True, if_true, hu]
    · have hu2 : ¬ (interfaces.foldl checkNetworkStatus_step ⟨0, false, false⟩).up_interfaces > 0 :=
        fun h => hu (hup.mp h)
      have hp : interfaces.any (fun i => i.is_up && !i.is_bridge) = false := by
        cases hq : interfaces.any (fun i => i.is_up && !i.is_bridge) with
        | false => rfl
        | true => exact absurd (hphys hq) hu
      simp only [hu2, decide_False, hp, Bool.false_and, Bool.or_false, if_false, hu,
        Bool.false_eq_true]

/-- C3: with a ping target, `checkNetworkStatus` is `UNKNOWN` on an empty
interface list; otherwise `HEALTHY` when a bridge is up or a non-bridge interface
is up and the probe succeeded; otherwise `WARNING` when some interface is up;
otherwise `CRITICAL`. The five cases of the specification follow. -/
theorem C3_network_classifier (interfaces : List NetworkInterface) (ping_target : Str)
    (probe : Bool) (htarget : ping_target ≠ []) (hlen : interfaces.length < 2 ^ 31) :
    (checkNetworkStatus interfaces ping_target probe =
      if interfaces = [] then NetworkStatus.UNKNOWN
      else if interfaces.any (fun i => i.is_up && i.is_bridge) ||
          (interfaces.any (fun i => i.is_up && !i.is_bridge) && probe) then
        NetworkStatus.HEALTHY
      else if interfaces.any (fun i => i.is_up) then NetworkStatus.WARNING
      else NetworkStatus.CRITICAL) ∧
    (∀ p : Bool, checkNetworkStatus
      [⟨"br0".toList, true, true, "UP".toList, 0⟩,
        ⟨"eth0".toList, false, false, "DOWN".toList, 0⟩] "8.8.8.8".toList p
        = NetworkStatus.HEALTHY) ∧
    checkNetworkStatus [⟨"eth0".toList, true, false, "UP".toList, 1000⟩] "8.8.8.8".toList true
      = NetworkStatus.HEALTHY ∧
    checkNetworkStatus [⟨"eth0".toList, true, false, "UP".toList, 1000⟩] "8.8.8.8".toList false
      = NetworkStatus.WARNING ∧
    (∀ p : Bool, checkNetworkStatus
      [⟨"br0".toList, false, true, "DOWN".toList, 0⟩,
        ⟨"eth0".toList, false, false, "DOWN".toList, 0⟩] "8.8.8.8".toList p
        = NetworkStatus.CRITICAL) ∧
    (∀ p : Bool, checkNetworkStatus [] "8.8.8.8".toList p = NetworkStatus.UNKNOWN) :=
  ⟨checkNetworkStatus_eq interfaces ping_target probe htarget hlen,
    by decide, by decide, by decide, by decide, by decide⟩

/-- C3 at two interfaces, `eth0` up and `eth1` down, with a failed probe: the
result is `WARNING`. -/
theorem C3_network_classifier_witness :
    checkNetworkStatus
      [⟨"eth0".toList, true, false, "UP".toList, 1000⟩,
        ⟨"eth1".toList, false, false, "DOWN".toList, 0⟩] "8.8.8.8".toList false
      = NetworkStatus.WARNING :=
  (C3_network_classifier
    [⟨"eth0".toList, true, false, "UP".toList, 1000⟩,
      ⟨"eth1".toList, false, false, "DOWN".toList, 0⟩] "8.8.8.8".toList false
    (by decide) (by decide)).1.trans (by decide)

/-! ### S.M.A.R.T. classifier -/

set_option maxRecDepth 100000 in
/-- The classification of every exit code `0..255`, by its bits. -/
theorem interpretExitCode_byte (n : Fin 256) :
    ((n.val / 8 % 2 = 1 ∨ n.val / 16 % 2 = 1) →
        interpretExitCode (n.val : Int) = SmartStatus.CRITICAL) ∧
      (¬ (n.val / 8 % 2 = 1 ∨ n.val / 16 % 2 = 1) →
        (n.val / 64 % 2 = 1 ∨ n.val / 128 % 2 = 1) →
        interpretExitCode (n.val : Int) = SmartStatus.WARNING) ∧
      (¬ (n.val / 8 % 2 = 1 ∨ n.val / 16 % 2 = 1) →
        ¬ (n.val / 64 % 2 = 1 ∨ n.val / 128 % 2 = 1) →
        n.val % 8 ≠ 0 →
        interpretExitCode (n.val : Int) = SmartStatus.UNAVAILABLE) := by
  revert n
  decide

/-- C4: for an exit code in `0..255`, `interpretExitCode` is `CRITICAL` when bit 3
or bit 4 is set; otherwise `WARNING` when bit 6 or bit 7 is set; otherwise
`UNAVAILABLE` when one of bits 0..2 is set. -/
theorem C4_interpretExitCode_precedence (exit_code : Int) (h0 : 0 ≤ exit_code)
    (h255 : exit_code ≤ 255) :
    ((exit_code / 8 % 2 = 1 ∨ exit_code / 16 % 2 = 1) →
        interpretExitCode exit_code = SmartStatus.CRITICAL) ∧
      (¬ (exit_code / 8 % 2 = 1 ∨ exit_code / 16 % 2 = 1) →
        (exit_code / 64 % 2 = 1 ∨ exit_code / 128 % 2 = 1) →
        interpretExitCode exit_code = SmartStatus.WARNING) ∧
      (¬ (exit_code / 8 % 2 = 1 ∨ exit_code / 16 % 2 = 1) →
        ¬ (exit_code / 64 % 2 = 1 ∨ exit_code / 128 % 2 = 1) →
        exit_code % 8 ≠ 0 →
        interpretExitCode exit_code = SmartStatus.UNAVAILABLE) := by
  obtain ⟨n, rfl⟩ := Int.eq_ofNat_of_zero_le h0
  have hn : n < 256 := by omega
  obtain ⟨k1, k2, k3⟩ := interpretExitCode_byte ⟨n, hn⟩
  simp only at k1 k2 k3
  refine ⟨fun h => k1 (by omega), fun h h2 => k2 (by omega) (by omega),
    fun h h2 h3 => k3 (by omega) (by omega) (by omega)⟩

/-- C4 at exit code 216 (bits 3, 4, 6 and 7): `CRITICAL`. -/
theorem C4_interpretExitCode_precedence_witness :
    interpretExitCode 216 = SmartStatus.CRITICAL :=
  (C4_interpretExitCode_precedence 216 (by decide) (by decide)).1 (by decide)

/-- Bit 3 of an `int`, read arithmetically, is bit 3 of `Int.testBit`. -/
theorem testBit_three (e : Int) (h : e / 8 % 2 = 1) : Int.testBit e 3 = true := by
  cases e with
  | ofNat n =>
    rw [Int.ofNat_eq_coe] at h
    have hn : n / 2 ^ 3 % 2 = 1 := by norm_num; omega
    simp only [Int.testBit, Nat.testBit_to_div_mod, hn, decide_True]
  | negSucc m =>
    have hm : ¬ (m / 2 ^ 3 % 2 = 1) := by
      rw [Int.negSucc_eq] at h
      norm_num
      omega
    simp only [Int.testBit, Nat.testBit_to_div_mod, hm, decide_False, Bool.not_false]

/-- Bit 4 of an `int`, read arithmetically, is bit 4 of `Int.testBit`. -/
theorem testBit_four (e : Int) (h : e / 16 % 2 = 1) : Int.testBit e 4 = true := by
  cases e with
  | ofNat n =>
    rw [Int.ofNat_eq_coe] at h
    have hn : n / 2 ^ 4 % 2 = 1 := by norm_num; omega
    simp only [Int.testBit, Nat.testBit_to_div_mod, hn, decide_True]
  | negSucc m =>
    have hm : ¬ (m / 2 ^ 4 % 2 = 1) := by
      rw [Int.negSucc_eq] at h
      norm_num
      omega
    simp only [Int.testBit, Nat.testBit_to_div_mod, hm, decide_False, Bool.not_false]

/-- An `int` with bit 3 or bit 4 set is classified `CRITICAL`. -/
theorem interpretExitCode_critical (e : Int) (h : e / 8 % 2 = 1 ∨ e / 16 % 2 = 1) :
    interpretExitCode e = SmartStatus.CRITICAL := by
  have hc : Int.land e 8 ≠ 0 ∨ Int.land e 16 ≠ 0 := by
    rcases h with h | h
    · left
      intro h0
      have h2 := congrArg (fun x => Int.testBit x 3) h0
      simp only [Int.testBit_land, testBit_three e h] at h2
      revert h2
      decide
    · right
      intro h0
      have h2 := congrArg (fun x => Int.testBit x 4) h0
      simp only [Int.testBit_land, testBit_four e h] at h2
      revert h2
      decide
  unfold interpretExitCode
  rw [if_pos hc]

/-- C5, as stated, fails: with exit code 0 and a `smartctl -H` text that holds
both `PASSED` and `FAILED` (the column title `WHEN_FAILED`), the text contains
`FAILED` and the status of `getSmartInfo` is `HEALTHY`. -/
theorem C5_failed_text_counterexample :
    List.IsInfix "FAILED".toList
        "SMART overall-health self-assessment test result: PASSED\nID# ATTRIBUTE_NAME WHEN_FAILED RAW_VALUE\n".toList ∧
      (getSmartInfo true true 0
        "SMART overall-health self-assessment test result: PASSED\nID# ATTRIBUTE_NAME WHEN_FAILED RAW_VALUE\n".toList).status
        = SmartStatus.HEALTHY :=
  ⟨(contains_iff _ _).mp (by decide), by decide⟩

/-- C5, amended: for an existing device with smartctl available, every exit code
and every `smartctl -H` text that contains `FAILED` and does not contain `PASSED`,
the status of `getSmartInfo` is `CRITICAL`. -/
theorem C5_failed_text_without_passed (exit_code : Int) (health_output : Str)
    (hfailed : List.IsInfix "FAILED".toList health_output)
    (hpassed : ¬ List.IsInfix "PASSED".toList health_output) :
    (getSmartInfo true true exit_code health_output).status = SmartStatus.CRITICAL := by
  have h1 : contains health_output "PASSED".toList = false := by
    cases h : contains health_output "PASSED".toList with
    | false => rfl
    | true => exact absurd ((contains_iff _ _).mp h) hpassed
  have h2 : contains health_output "FAILED".toList = true := (contains_iff _ _).mpr hfailed
  unfold getSmartInfo
  simp only [Bool.not_true, Bool.or_self, Bool.false_eq_true, if_false, h1, h2, if_true]

/-- C5, amended, at exit code 0 and the text of a failed self-assessment. -/
theorem C5_failed_text_without_passed_witness :
    (getSmartInfo true true 0
      "SMART overall-health self-assessment test result: FAILED!\n".toList).status
      = SmartStatus.CRITICAL :=
  C5_failed_text_without_passed 0
    "SMART overall-health self-assessment test result: FAILED!\n".toList
    ((contains_iff _ _).mp (by decide))
    (fun h => absurd ((contains_iff _ _).mpr h) (by decide))

/-- C6, at exit code 0 and the text of a failed self-assessment: `checkSmartStatus`
returns `HEALTHY`, while the status of `getSmartInfo` on the same exit code and
text is `CRITICAL`. The text is never read by `checkSmartStatus`. -/
theorem C6_checkSmartStatus_ignores_text :
    checkSmartStatus true true 0
        "SMART overall-health self-assessment test result: FAILED!\n".toList
        = SmartStatus.HEALTHY ∧
      (getSmartInfo true true 0
        "SMART overall-health self-assessment test result: FAILED!\n".toList).status
        = SmartStatus.CRITICAL ∧
      ∀ (exit_code : Int) (text : Str),
        checkSmartStatus true true exit_code text = interpretExitCode exit_code := by
  refine ⟨by decide, by decide, ?_⟩
  intro exit_code text
  rfl

/-- C7: for an existing device with smartctl available, an exit code with bit 3
(8) or bit 4 (16) set gives status `CRITICAL` in `getSmartInfo` for every health
text, also one that contains `PASSED`. -/
theorem C7_prefail_bit_critical (exit_code : Int) (health_output : Str)
    (hbit : exit_code / 8 % 2 = 1 ∨ exit_code / 16 % 2 = 1) :
    (getSmartInfo true true exit_code health_output).status = SmartStatus.CRITICAL := by
  have hc := interpretExitCode_critical exit_code hbit
  unfold getSmartInfo
  simp only [Bool.not_true, Bool.or_self, Bool.false_eq_true, if_false, hc]
  split
  · rfl
  · split <;> rfl

/-- C7 at exit code 16 (only the pre-fail bit) and a text that says `PASSED`. -/
theorem C7_prefail_bit_critical_witness :
    (getSmartInfo true true 16
      "SMART overall-health self-assessment test result: PASSED\n".toList).status
      = SmartStatus.CRITICAL :=
  C7_prefail_bit_critical 16
    "SMART overall-health self-assessment test result: PASSED\n".toList (by decide)

/-! ### ZFS pool classifier -/

/-- The health that the token comparison of `getPoolInfo` assigns, before the
status text is read. -/
theorem getPoolInfo_no_operation (pool_name health_cmd_output status_output : Str)
    (h1 : (find status_output "scrub in progress".toList).isSome = false)
    (h2 : (find status_output "resilver in progress".toList).isSome = false)
    (h3 : (find status_output "scrub repaired".toList).isSome = false) :
    (getPoolInfo pool_name health_cmd_output status_output).health =
      if trimString health_cmd_output = "ONLINE".toList then ZfsPoolHealth.ONLINE
      else if trimString health_cmd_output = "DEGRADED".toList then ZfsPoolHealth.DEGRADED
      else if trimString health_cmd_output = "FAULTED".toList then ZfsPoolHealth.FAULTED
      else if trimString health_cmd_output = "UNAVAIL".toList then ZfsPoolHealth.UNAVAIL
      else ZfsPoolHealth.UNKNOWN := by
  unfold getPoolInfo
  simp only [h1, h2, h3, Bool.false_and, Bool.false_eq_true, if_false]
  split_ifs <;> rfl

/-- A status text without a substring gives a failed `find`. -/
theorem find_isSome_false (str sub : Str) (h : ¬ List.IsInfix sub str) :
    (find str sub).isSome = false := by
  cases hf : (find str sub).isSome with
  | false => rfl
  | true => exact absurd ((find_isSome_iff str sub).mp hf) h

/-- C8: whatever the health token, `getPoolInfo` reports `SCRUB_ACTIVE` when the
status text contains `scrub in progress`, and `RESILVER_ACTIVE` when it contains
`resilver in progress` and not `scrub in progress`. -/
theorem C8_operation_supersedes_token (pool_name health_cmd_output status_output : Str) :
    (List.IsInfix "scrub in progress".toList status_output →
        (getPoolInfo pool_name health_cmd_output status_output).health
          = ZfsPoolHealth.SCRUB_ACTIVE) ∧
      (List.IsInfix "resilver in progress".toList status_output →
        ¬ List.IsInfix "scrub in progress".toList status_output →
        (getPoolInfo pool_name health_cmd_output status_output).health
          = ZfsPoolHealth.RESILVER_ACTIVE) := by
  constructor
  · intro hs
    have h1 := (find_isSome_iff _ _).mpr hs
    unfold getPoolInfo
    simp only [h1, if_true]
  · intro hr hs
    have h1 := find_isSome_false _ _ hs
    have h2 := (find_isSome_iff _ _).mpr hr
    unfold getPoolInfo
    simp only [h1, h2, if_true, Bool.false_eq_true, if_false]

/-- C8 at the token `ONLINE` and a status text with `scrub in progress`: the
health is `SCRUB_ACTIVE`; and at a status text with `resilver in progress` only:
`RESILVER_ACTIVE`. -/
theorem C8_operation_supersedes_token_witness :
    (getPoolInfo "tank".toList "ONLINE\n".toList
        "  pool: tank\n state: ONLINE\n  scan: scrub in progress since Sun Nov  1 00:24:01 2026\n".toList).health
        = ZfsPoolHealth.SCRUB_ACTIVE ∧
      (getPoolInfo "tank".toList "DEGRADED\n".toList
        "  pool: tank\n state: DEGRADED\n  scan: resilver in progress since Sun Nov  1 00:24:01 2026\n".toList).health
        = ZfsPoolHealth.RESILVER_ACTIVE :=
  ⟨(C8_operation_supersedes_token "tank".toList "ONLINE\n".toList
      "  pool: tank\n state: ONLINE\n  scan: scrub in progress since Sun Nov  1 00:24:01 2026\n".toList).1
      ((find_isSome_iff _ _).mp (by decide)),
    (C8_operation_supersedes_token "tank".toList "DEGRADED\n".toList
      "  pool: tank\n state: DEGRADED\n  scan: resilver in progress since Sun Nov  1 00:24:01 2026\n".toList).2
      ((find_isSome_iff _ _).mp (by decide))
      (fun h => absurd ((find_isSome_iff _ _).mpr h) (by decide))⟩

/-- C9, at the input of the claim: for the token `ONLINE` and the status text of
a scrub that completed with 0 errors, `getPoolInfo` reports `SCRUB_ERRORS` and
sets `scrub_errors`, since the text contains `scrub repaired`, `with` and
`errors`. -/
theorem C9_clean_scrub_reported_as_errors :
    (getPoolInfo "tank".toList "ONLINE\n".toList
        "  scan: scrub repaired 0B in 00:10:00 with 0 errors on Sun\nerrors: No known data errors\n".toList).health
        = ZfsPoolHealth.SCRUB_ERRORS ∧
      (getPoolInfo "tank".toList "ONLINE\n".toList
        "  scan: scrub repaired 0B in 00:10:00 with 0 errors on Sun\nerrors: No known data errors\n".toList).scrub_errors
        = true := by
  decide

/-- C10: when the status text contains none of `scrub in progress`,
`resilver in progress` and `scrub repaired`, the health of `getPoolInfo` is the
one named by the trimmed token, `ONLINE`, `DEGRADED`, `FAULTED` or `UNAVAIL`, and
`UNKNOWN` for every other token, the empty output included; the four tokens are
recognised under any surrounding white space. -/
theorem C10_token_mapping (pool_name health_cmd_output status_output : Str)
    (h1 : ¬ List.IsInfix "scrub in progress".toList status_output)
    (h2 : ¬ List.IsInfix "resilver in progress".toList status_output)
    (h3 : ¬ List.IsInfix "scrub repaired".toList status_output) :
    ((getPoolInfo pool_name health_cmd_output status_output).health =
      if trimString health_cmd_output = "ONLINE".toList then ZfsPoolHealth.ONLINE
      else if trimString health_cmd_output = "DEGRADED".toList then ZfsPoolHealth.DEGRADED
      else if trimString health_cmd_output = "FAULTED".toList then ZfsPoolHealth.FAULTED
      else if trimString health_cmd_output = "UNAVAIL".toList then ZfsPoolHealth.UNAVAIL
      else ZfsPoolHealth.UNKNOWN) ∧
    (getPoolInfo pool_name [] status_output).health = ZfsPoolHealth.UNKNOWN ∧
    (∀ ws1 ws2 : Str, (∀ x ∈ ws1, x ∈ " \t\n\r".toList) → (∀ x ∈ ws2, x ∈ " \t\n\r".toList) →
      (getPoolInfo pool_name (ws1 ++ "ONLINE".toList ++ ws2) status_output).health
          = ZfsPoolHealth.ONLINE ∧
        (getPoolInfo pool_name (ws1 ++ "DEGRADED".toList ++ ws2) status_output).health
          = ZfsPoolHealth.DEGRADED ∧
        (getPoolInfo pool_name (ws1 ++ "FAULTED".toList ++ ws2) status_output).health
          = ZfsPoolHealth.FAULTED ∧
        (getPoolInfo pool_name (ws1 ++ "UNAVAIL".toList ++ ws2) status_output).health
          = ZfsPoolHealth.UNAVAIL) := by
  have k1 := find_isSome_false _ _ h1
  have k2 := find_isSome_false _ _ h2
  have k3 := find_isSome_false _ _ h3
  refine ⟨getPoolInfo_no_operation _ _ _ k1 k2 k3, ?_, ?_⟩
  · rw [getPoolInfo_no_operation _ _ _ k1 k2 k3]
    decide
  · intro ws1 ws2 hw1 hw2
    refine ⟨?_, ?_, ?_, ?_⟩
    · rw [getPoolInfo_no_operation _ _ _ k1 k2 k3,
        trimString_pad ws1 "ONLINE".toList ws2 hw1 hw2 (by decide) (by decide) (by decide)]
      decide
    · rw [getPoolInfo_no_operation _ _ _ k1 k2 k3,
        trimString_pad ws1 "DEGRADED".toList ws2 hw1 hw2 (by decide) (by decide) (by decide)]
      decide
    · rw [getPoolInfo_no_operation _ _ _ k1 k2 k3,
        trimString_pad ws1 "FAULTED".toList ws2 hw1 hw2 (by decide) (by decide) (by decide)]
      decide
    · rw [getPoolInfo_no_operation _ _ _ k1 k2 k3,
        trimString_pad ws1 "UNAVAIL".toList ws2 hw1 hw2 (by decide) (by decide) (by decide)]
      decide

/-- C10 at the output `DEGRADED` with a line feed and a status text without a
scan line: the health is `DEGRADED`. -/
theorem C10_token_mapping_witness :
    (getPoolInfo "tank".toList "DEGRADED\n".toList
      "  pool: tank\n state: DEGRADED\nconfig:\n".toList).health = ZfsPoolHealth.DEGRADED :=
  (C10_token_mapping "tank".toList "DEGRADED\n".toList
    "  pool: tank\n state: DEGRADED\nconfig:\n".toList
    (fun h => absurd ((find_isSome_iff _ _).mpr h) (by decide))
    (fun h => absurd ((find_isSome_iff _ _).mpr h) (by decide))
    (fun h => absurd ((find_isSome_iff _ _).mpr h) (by decide))).1.trans (by decide)

/-! ### ZFS disk classifier -/

/-- A white-space character is not a word character. -/
theorem isWord_of_isSpace (c : Char) (h : isSpace c = true) : isWord c = false := by
  simp only [isSpace, Bool.or_eq_true, decide_eq_true_eq] at h
  rcases h with ((((h | h) | h) | h) | h) | h <;> subst h <;> decide

/-- A match of `regex_match_at` is the name, a non-empty run of white space, and
the word it returns. -/
theorem regex_match_at_sound (n t w : Str) (h : regex_match_at n t = some w) :
    ∃ ws rest, t = n ++ ws ++ w ++ rest ∧ ws ≠ [] ∧ (∀ c ∈ ws, isSpace c = true) ∧
      w ≠ [] ∧ (∀ c ∈ w, isWord c = true) := by
  unfold regex_match_at at h
  by_cases hp : n.isPrefixOf t = true
  · rw [if_pos hp] at h
    obtain ⟨r, rfl⟩ := List.isPrefixOf_iff_prefix.mp hp
    simp only [List.drop_left] at h
    by_cases hc : List.takeWhile isSpace r ≠ [] ∧
        List.takeWhile isWord (List.dropWhile isSpace r) ≠ []
    · rw [if_pos hc] at h
      have hw : List.takeWhile isWord (List.dropWhile isSpace r) = w := Option.some.inj h
      refine ⟨List.takeWhile isSpace r, List.dropWhile isWord (List.dropWhile isSpace r),
        ?_, hc.1, fun c hcm => List.mem_takeWhile_imp hcm, hw ▸ hc.2, ?_⟩
      · rw [← hw, List.append_assoc, List.append_assoc, List.takeWhile_append_dropWhile,
          List.takeWhile_append_dropWhile]
      · intro c hcm
        rw [← hw] at hcm
        exact List.mem_takeWhile_imp hcm
    · rw [if_neg hc] at h
      exact absurd h (by simp)
  · rw [if_neg hp] at h
    exact absurd h (by simp)

/-- The name, a non-empty run of white space and a maximal non-empty run of word
characters are matched by `regex_match_at`, which returns the word. -/
theorem regex_match_at_complete (n ws w rest : Str) (hws : ws ≠ [])
    (hspace : ∀ c ∈ ws, isSpace c = true) (hw : w ≠ []) (hword : ∀ c ∈ w, isWord c = true)
    (hrest : ∀ c, rest.head? = some c → isWord c = false) :
    regex_match_at n (n ++ ws ++ w ++ rest) = some w := by
  have hp : n.isPrefixOf (n ++ ws ++ w ++ rest) = true := by
    rw [List.isPrefixOf_iff_prefix, List.append_assoc, List.append_assoc]
    exact List.prefix_append _ _
  have hdrop : (n ++ ws ++ w ++ rest).drop n.length = ws ++ (w ++ rest) := by
    rw [List.append_assoc, List.append_assoc, List.drop_left]
  have hwordrest : List.takeWhile isWord (w ++ rest) = w := by
    rw [List.takeWhile_append_of_pos hword]
    cases rest with
    | nil => simp
    | cons c r =>
      have : isWord c = false := hrest c rfl
      simp [List.takeWhile_cons, this]
  have hnotspace : List.takeWhile isSpace (w ++ rest) = [] ∧
      List.dropWhile isSpace (w ++ rest) = w ++ rest := by
    cases w with
    | nil => exact absurd rfl hw
    | cons a t =>
      have ha : isWord a = true := hword a (List.mem_cons_self a t)
      have hs : isSpace a = false := by
        cases hsa : isSpace a with
        | false => rfl
        | true =>
          rw [isWord_of_isSpace a hsa] at ha
          exact absurd ha (by simp)
      simp [List.takeWhile_cons, List.dropWhile_cons, hs]
  unfold regex_match_at
  rw [if_pos hp]
  simp only [hdrop, List.takeWhile_append_of_pos hspace, List.dropWhile_append_of_pos hspace,
    hnotspace.1, hnotspace.2, List.append_nil, hwordrest]
  rw [if_pos ⟨hws, hw⟩]

/-- The search skips a prefix in which no position starts a match. -/
theorem regex_search_skip (n pre t : Str)
    (h : ∀ k, k < pre.length → regex_match_at n ((pre ++ t).drop k) = none) :
    regex_search (pre ++ t) n = regex_search t n := by
  induction pre with
  | nil => rfl
  | cons a p ih =>
    have h0 := h 0 (by simp)
    simp only [List.drop_zero] at h0
    have hstep : regex_search (a :: p ++ t) n = regex_search (p ++ t) n := by
      simp only [List.cons_append] at h0 ⊢
      simp only [regex_search, h0]
    rw [hstep]
    apply ih
    intro k hk
    have := h (k + 1) (by simp; omega)
    simpa using this

/-- The search returns a match at the first character when there is one. -/
theorem regex_search_here (n t w : Str) (h : regex_match_at n t = some w) :
    regex_search t n = some w := by
  cases t with
  | nil => simpa [regex_search] using h
  | cons a p => simp only [regex_search, h]

/-- The search fails when no position starts a match. -/
theorem regex_search_none (n t : Str)
    (h : ∀ k, regex_match_at n (t.drop k) = none) : regex_search t n = none := by
  induction t with
  | nil => simpa [regex_search] using h 0
  | cons a p ih =>
    have h0 := h 0
    simp only [List.drop_zero] at h0
    simp only [regex_search, h0]
    apply ih
    intro k
    simpa using h (k + 1)

/-- A match that starts at position `k` of `s` gives an occurrence of the name in
`s`, at most `k` characters in, followed by white space and a word character. -/
theorem regex_match_at_drop (n s w : Str) (k : Nat)
    (h : regex_match_at n (s.drop k) = some w) :
    ∃ pre2 ws2 c2 rest2, s = pre2 ++ n ++ ws2 ++ c2 :: rest2 ∧ pre2.length ≤ k ∧
      ws2 ≠ [] ∧ (∀ c ∈ ws2, isSpace c = true) ∧ isWord c2 = true := by
  obtain ⟨ws, rest, hdec, hws, hspace, hw, hword⟩ := regex_match_at_sound n _ w h
  cases w with
  | nil => exact absurd rfl hw
  | cons c2 w2 =>
    refine ⟨s.take k, ws, c2, w2 ++ rest, ?_, ?_, hws, hspace,
      hword c2 (List.mem_cons_self c2 w2)⟩
    · conv_lhs => rw [← List.take_append_drop k s, hdec]
      simp
    · rw [List.length_take]
      exact Nat.min_le_left _ _

/-- The loop of `checkDiskZfsStatus` stops at the first pool whose status text
contains the name, and decides by the search in that text. -/
theorem checkDiskZfsStatus_pools_first (n : Str) (before : List Str) (s : Str)
    (after : List Str) (hbefore : ∀ t ∈ before, ¬ List.IsInfix n t)
    (hs : List.IsInfix n s) :
    (∀ w, regex_search s n = some w →
      checkDiskZfsStatus_pools n (before ++ s :: after) =
        if w = "ONLINE".toList then ZfsDiskStatus.ONLINE
        else if w = "DEGRADED".toList then ZfsDiskStatus.DEGRADED
        else if w = "FAULTED".toList ∨ w = "OFFLINE".toList ∨ w = "UNAVAIL".toList then
          ZfsDiskStatus.FAULTED
        else ZfsDiskStatus.ONLINE) ∧
    (regex_search s n = none →
      checkDiskZfsStatus_pools n (before ++ s :: after) = ZfsDiskStatus.ONLINE) := by
  induction before with
  | nil =>
    have hf : (find s n).isSome = true := (find_isSome_iff s n).mpr hs
    constructor
    · intro w hw
      simp only [List.nil_append, checkDiskZfsStatus_pools, hf, if_true, hw]
    · intro hnone
      simp only [List.nil_append, checkDiskZfsStatus_pools, hf, if_true, hnone]
  | cons t ts ih =>
    have hf : (find t n).isSome = false :=
      find_isSome_false t n (hbefore t (List.mem_cons_self t ts))
    have ih2 := ih (fun x hx => hbefore x (List.mem_cons_of_mem t hx))
    constructor
    · intro w hw
      simp only [List.cons_append, checkDiskZfsStatus_pools, hf, Bool.false_eq_true, if_false]
      exact ih2.1 w hw
    · intro hnone
      simp only [List.cons_append, checkDiskZfsStatus_pools, hf, Bool.false_eq_true, if_false]
      exact ih2.2 hnone

/-- C11: for an existing device whose short name is made of letters and digits,
and the first pool, in pool order, whose status text `s` contains the name, the
result of `checkDiskZfsStatus` is decided by the word after the leftmost
occurrence of the name that is followed by white space and a word: `ONLINE`
gives `ONLINE`, `DEGRADED` gives `DEGRADED`, `FAULTED`, `OFFLINE` and `UNAVAIL`
give `FAULTED`, any other word gives `ONLINE`; without such an occurrence the
result is `ONLINE`. The pools after it play no part. -/
theorem C11_disk_token (device_path : Str) (before : List Str) (s : Str) (after : List Str)
    (hpath : device_path ≠ [])
    (_halnum : ∀ c ∈ device_name device_path, c.isAlphanum = true)
    (hbefore : ∀ t ∈ before, ¬ List.IsInfix (device_name device_path) t)
    (hs : List.IsInfix (device_name device_path) s) :
    (∀ pre ws tok rest : Str,
      s = pre ++ device_name device_path ++ ws ++ tok ++ rest →
      ws ≠ [] → (∀ c ∈ ws, isSpace c = true) →
      tok ≠ [] → (∀ c ∈ tok, isWord c = true) →
      (∀ c, rest.head? = some c → isWord c = false) →
      (∀ pre2 ws2 c2 rest2, s = pre2 ++ device_name device_path ++ ws2 ++ c2 :: rest2 →
        ws2 ≠ [] → (∀ c ∈ ws2, isSpace c = true) → isWord c2 = true →
        pre.length ≤ pre2.length) →
      checkDiskZfsStatus device_path true (before ++ s :: after) =
        if tok = "ONLINE".toList then ZfsDiskStatus.ONLINE
        else if tok = "DEGRADED".toList then ZfsDiskStatus.DEGRADED
        else if tok = "FAULTED".toList ∨ tok = "OFFLINE".toList ∨ tok = "UNAVAIL".toList then
          ZfsDiskStatus.FAULTED
        else ZfsDiskStatus.ONLINE) ∧
    ((¬ ∃ pre2 ws2 c2 rest2, s = pre2 ++ device_name device_path ++ ws2 ++ c2 :: rest2 ∧
        ws2 ≠ [] ∧ (∀ c ∈ ws2, isSpace c = true) ∧ isWord c2 = true) →
      checkDiskZfsStatus device_path true (before ++ s :: after) = ZfsDiskStatus.ONLINE) := by
  have hne : device_path.isEmpty = false := by
    cases device_path with
    | nil => exact absurd rfl hpath
    | cons a t => rfl
  have hunfold : checkDiskZfsStatus device_path true (before ++ s :: after) =
      checkDiskZfsStatus_pools (device_name device_path) (before ++ s :: after) := by
    simp only [checkDiskZfsStatus, hne, Bool.false_eq_true, if_false, Bool.not_true]
  obtain ⟨hsome, hnone⟩ :=
    checkDiskZfsStatus_pools_first (device_name device_path) before s after hbefore hs
  rw [hunfold]
  constructor
  · intro pre ws tok rest hdec hws hspace htok hword hrest hleft
    apply hsome
    have hskip : regex_search s (device_name device_path) =
        regex_search (device_name device_path ++ ws ++ tok ++ rest) (device_name device_path) := by
      rw [hdec]
      simp only [List.append_assoc]
      apply regex_search_skip
      intro k hk
      cases hm : regex_match_at (device_name device_path)
          ((pre ++ (device_name device_path ++ (ws ++ (tok ++ rest)))).drop k) with
      | none => rfl
      | some w =>
        have hs2 : s = pre ++ (device_name device_path ++ (ws ++ (tok ++ rest))) := by
          rw [hdec]; simp only [List.append_assoc]
        rw [← hs2] at hm
        obtain ⟨pre2, ws2, c2, rest2, hd2, hlen2, hws2, hsp2, hc2⟩ :=
          regex_match_at_drop _ s w k hm
        have := hleft pre2 ws2 c2 rest2 hd2 hws2 hsp2 hc2
        omega
    rw [hskip]
    exact regex_search_here _ _ _
      (regex_match_at_complete _ ws tok rest hws hspace htok hword hrest)
  · intro hno
    apply hnone
    apply regex_search_none
    intro k
    cases hm : regex_match_at (device_name device_path) (s.drop k) with
    | none => rfl
    | some w =>
      obtain ⟨pre2, ws2, c2, rest2, hd2, -, hws2, hsp2, hc2⟩ :=
        regex_match_at_drop _ s w k hm
      exact absurd ⟨pre2, ws2, c2, rest2, hd2, hws2, hsp2, hc2⟩ hno

/-- C11 at the device `/dev/sda` and three pools: the first does not mention
`sda`, the second has the line `sda  DEGRADED  0 0 0`, the third says
`sda FAULTED`; the result is `DEGRADED`. -/
theorem C11_disk_token_witness :
    checkDiskZfsStatus "/dev/sda".toList true
      (["  pool: boot\n\tsdb  ONLINE  0 0 0\n".toList] ++
        "sda  DEGRADED  0 0 0\n".toList :: ["sda FAULTED\n".toList])
      = ZfsDiskStatus.DEGRADED :=
  ((C11_disk_token "/dev/sda".toList ["  pool: boot\n\tsdb  ONLINE  0 0 0\n".toList]
      "sda  DEGRADED  0 0 0\n".toList ["sda FAULTED\n".toList]
      (by decide) (by decide)
      (fun t ht h => absurd ((find_isSome_iff _ _).mpr h)
        (by rw [List.mem_singleton.mp ht]; decide))
      ((find_isSome_iff _ _).mp (by decide))).1
    [] "  ".toList "DEGRADED".toList "  0 0 0\n".toList
    (by decide) (by decide) (by decide) (by decide) (by decide) (by decide)
    (fun _ _ _ _ _ _ _ _ => Nat.zero_le _)).trans (by decide)

/-- The loop of `checkDiskZfsStatus` ends in `NOT_IN_POOL` exactly when no status
text contains the name. -/
theorem checkDiskZfsStatus_pools_not_in_pool (n : Str) (pools : List Str) :
    checkDiskZfsStatus_pools n pools = ZfsDiskStatus.NOT_IN_POOL ↔
      ∀ t ∈ pools, ¬ List.IsInfix n t := by
  induction pools with
  | nil => simp [checkDiskZfsStatus_pools]
  | cons t ts ih =>
    by_cases hin : List.IsInfix n t
    · have hf : (find t n).isSome = true := (find_isSome_iff t n).mpr hin
      constructor
      · intro h
        exfalso
        simp only [checkDiskZfsStatus_pools, hf, if_true] at h
        revert h
        cases regex_search t n with
        | none => simp
        | some w => simp only []; split_ifs <;> simp
      · intro h
        exact absurd hin (h t (List.mem_cons_self t ts))
    · have hf : (find t n).isSome = false := find_isSome_false t n hin
      simp only [checkDiskZfsStatus_pools, hf, Bool.false_eq_true, if_false, ih,
        List.mem_cons, forall_eq_or_imp, hin, not_false_eq_true, true_and]

/-- C12: for an existing device, `checkDiskZfsStatus` returns `NOT_IN_POOL` if and
only if no pool of the list has a status text that contains the short name of the
device; the empty pool list is such a list. -/
theorem C12_not_in_pool_iff (device_path : Str) (pool_status : List Str)
    (hpath : device_path ≠ []) :
    checkDiskZfsStatus device_path true pool_status = ZfsDiskStatus.NOT_IN_POOL ↔
      ∀ t ∈ pool_status, ¬ List.IsInfix (device_name device_path) t := by
  have hne : device_path.isEmpty = false := by
    cases device_path with
    | nil => exact absurd rfl hpath
    | cons a t => rfl
  have hunfold : checkDiskZfsStatus device_path true pool_status =
      checkDiskZfsStatus_pools (device_name device_path) pool_status := by
    simp only [checkDiskZfsStatus, hne, Bool.false_eq_true, if_false, Bool.not_true]
  rw [hunfold]
  exact checkDiskZfsStatus_pools_not_in_pool _ _

/-- C12 at the device `/dev/sdc` and the empty pool list: `NOT_IN_POOL`. -/
theorem C12_not_in_pool_iff_witness :
    checkDiskZfsStatus "/dev/sdc".toList true [] = ZfsDiskStatus.NOT_IN_POOL :=
  (C12_not_in_pool_iff "/dev/sdc".toList [] (by decide)).mpr
    (fun _ ht => absurd ht (List.not_mem_nil _))

/-- C18, for every exit code and text: with `smart_available_` false and an
existing device, `checkSmartStatus` and `getSmartInfo` report `DEVICE_NOT_FOUND`,
not `UNAVAILABLE`. -/
theorem C18_missing_tool_reported_as_absent_device (exit_code : Int) (output : Str) :
    checkSmartStatus false true exit_code output = SmartStatus.DEVICE_NOT_FOUND ∧
      (getSmartInfo false true exit_code output).status = SmartStatus.DEVICE_NOT_FOUND :=
  ⟨rfl, rfl⟩

/-- C19: when the device path does not exist, `checkSmartStatus` and
`checkDiskZfsStatus` return `DEVICE_NOT_FOUND`, whatever the tool reports and
whatever the pools are; so does `checkDiskZfsStatus` for an empty path. -/
theorem C19_absent_device_short_circuit (smart_available : Bool) (exit_code : Int)
    (output device_path : Str) (access_ok : Bool) (pool_status : List Str) :
    checkSmartStatus smart_available false exit_code output = SmartStatus.DEVICE_NOT_FOUND ∧
      checkDiskZfsStatus device_path false pool_status = ZfsDiskStatus.DEVICE_NOT_FOUND ∧
      checkDiskZfsStatus [] access_ok pool_status = ZfsDiskStatus.DEVICE_NOT_FOUND := by
  refine ⟨?_, ?_, rfl⟩
  · cases smart_available <;> rfl
  · unfold checkDiskZfsStatus
    split_ifs <;> first | rfl | simp_all

/-! ### Disk identity resolver -/

/-- An `int` made from a size below `2 ^ 31` is the size. -/
theorem wrapInt32_length (n : Nat) (h : n < 2 ^ 31) : wrapInt32 (n : Int) = (n : Int) := by
  unfold wrapInt32
  norm_num at h ⊢
  omega

/-- The scan returns the first device whose link contains the key. -/
theorem getDiskDevice_scan_first (runCommand : Str → Str) (k : Str) (lines : List Str)
    (before : List Str) (d : Str) (after : List Str)
    (hsplit : lines.map trimString = before ++ d :: after)
    (hbefore : ∀ x ∈ before, ¬ List.IsInfix k (runCommand (readlinkCommand x)))
    (hd : List.IsInfix k (runCommand (readlinkCommand d))) :
    getDiskDevice_scan runCommand k lines = "/dev/".toList ++ d := by
  induction lines generalizing before with
  | nil => cases before <;> simp at hsplit
  | cons l ls ih =>
    cases before with
    | nil =>
      simp only [List.map_cons, List.nil_append, List.cons.injEq] at hsplit
      have hf : (find (runCommand (readlinkCommand d)) k).isSome = true :=
        (find_isSome_iff _ _).mpr hd
      simp only [getDiskDevice_scan, hsplit.1, hf, if_true]
    | cons b bs =>
      simp only [List.map_cons, List.cons_append, List.cons.injEq] at hsplit
      have hf : (find (runCommand (readlinkCommand b)) k).isSome = false :=
        find_isSome_false _ _ (hbefore b (List.mem_cons_self b bs))
      simp only [getDiskDevice_scan, hsplit.1, hf, Bool.false_eq_true, if_false]
      exact ih bs hsplit.2 (fun x hx => hbefore x (List.mem_cons_of_mem b hx))

/-- The scan returns the empty string when no link contains the key. -/
theorem getDiskDevice_scan_none (runCommand : Str → Str) (k : Str) (lines : List Str)
    (hnone : ∀ x ∈ lines.map trimString, ¬ List.IsInfix k (runCommand (readlinkCommand x))) :
    getDiskDevice_scan runCommand k lines = [] := by
  induction lines with
  | nil => rfl
  | cons l ls ih =>
    have hf : (find (runCommand (readlinkCommand (trimString l))) k).isSome = false :=
      find_isSome_false _ _ (hnone _ (by simp))
    simp only [getDiskDevice_scan, hf, Bool.false_eq_true, if_false]
    exact ih (fun x hx => hnone x (by simp only [List.map_cons, List.mem_cons]; exact Or.inr hx))

/-- With strategy `ATA`, a slot with a table entry is resolved by the scan of the
block devices. -/
theorem getDiskDevice_ata (m : DiskMapper) (runCommand : Str → Str) (i : Nat) (k : Str)
    (hmethod : m.mapping_method_ = MappingMethod.ATA) (hi : i < 8)
    (hk : m.ata_map_[i]? = some k) (hlen : m.ata_map_.length < 2 ^ 31) :
    getDiskDevice m runCommand (i : Int) =
      getDiskDevice_scan runCommand k
        (getlines (runCommand "ls /sys/block/ 2>/dev/null | grep -E '^sd[a-z]+$'".toList)) := by
  have hil : i < m.ata_map_.length := by
    rcases List.getElem?_eq_some_iff.mp hk with ⟨h, -⟩
    exact h
  have hguard : ¬ ((i : Int) < 0 ∨ (i : Int) ≥ 8) := by omega
  have hlt : (i : Int) < wrapInt32 (m.ata_map_.length : Int) := by
    rw [wrapInt32_length _ hlen]
    exact_mod_cast hil
  have hget : m.ata_map_.getD i [] = k := by
    rw [List.getD_eq_getElem?_getD, hk]
    rfl
  unfold getDiskDevice
  rw [if_neg hguard]
  simp only [hmethod, if_pos hlt, Int.toNat_ofNat, hget]

/-- C13: with strategy `ATA` and a slot that has the table entry `k`,
`getDiskDevice` returns `/dev/` and the first block device, in the order of the
enumeration, whose link text contains `k`, whatever devices follow it, and the
empty string when the link of no enumerated device contains `k`. -/
theorem C13_ata_first_match (m : DiskMapper) (runCommand : Str → Str) (i : Nat) (k : Str)
    (hmethod : m.mapping_method_ = MappingMethod.ATA) (hi : i < 8)
    (hk : m.ata_map_[i]? = some k) (hlen : m.ata_map_.length < 2 ^ 31) :
    (∀ (before : List Str) (d : Str) (after : List Str),
      (getlines (runCommand "ls /sys/block/ 2>/dev/null | grep -E '^sd[a-z]+$'".toList)).map
          trimString = before ++ d :: after →
      (∀ x ∈ before, ¬ List.IsInfix k (runCommand (readlinkCommand x))) →
      List.IsInfix k (runCommand (readlinkCommand d)) →
      getDiskDevice m runCommand (i : Int) = "/dev/".toList ++ d) ∧
    ((∀ x ∈ (getlines (runCommand
          "ls /sys/block/ 2>/dev/null | grep -E '^sd[a-z]+$'".toList)).map trimString,
        ¬ List.IsInfix k (runCommand (readlinkCommand x))) →
      getDiskDevice m runCommand (i : Int) = []) := by
  rw [getDiskDevice_ata m runCommand i k hmethod hi hk hlen]
  exact ⟨fun before d after hsplit hbefore hd =>
      getDiskDevice_scan_first runCommand k _ before d after hsplit hbefore hd,
    fun hnone => getDiskDevice_scan_none runCommand k _ hnone⟩

/-- C13 on the DXP6800 tables, slot 0 (key `ata3`), with the devices `sda`, `sdb`
and `sdc` enumerated in that order, where the links of `sdb` and `sdc` both
contain `ata3`: the result is `/dev/sdb`. -/
theorem C13_ata_first_match_witness :
    getDiskDevice (DiskMapper.construct MappingMethod.ATA "DXP6800 Pro\n".toList)
      (fun c =>
        if c = "ls /sys/block/ 2>/dev/null | grep -E '^sd[a-z]+$'".toList then
          "sda\nsdb\nsdc\n".toList
        else if c = readlinkCommand "sda".toList then
          "../devices/pci0000:00/0000:00:17.0/ata1/host0/target0:0:0/0:0:0:0/block/sda\n".toList
        else "../devices/pci0000:00/0000:00:17.0/ata3/host2/target2:0:0/2:0:0:0/block/sdx\n".toList)
      ((0 : Nat) : Int) = "/dev/sdb".toList :=
  (C13_ata_first_match (DiskMapper.construct MappingMethod.ATA "DXP6800 Pro\n".toList) _ 0
      "ata3".toList (by decide) (by decide) (by decide) (by decide)).1
    ["sda".toList] "sdb".toList ["sdc".toList] (by decide)
    (fun x hx h => absurd ((find_isSome_iff _ _).mpr h)
      (by rw [List.mem_singleton.mp hx]; decide))
    ((find_isSome_iff _ _).mp (by decide))

/-- The mapper that the constructor builds on a hardware identifier whose trimmed
text contains `DXP6800`. -/
theorem construct_dxp6800 (method : MappingMethod) (dmidecode_output : Str)
    (h : List.IsInfix "DXP6800".toList (trimString dmidecode_output)) :
    DiskMapper.construct method dmidecode_output =
      { mapping_method_ := method,
        ata_map_ := ["ata3".toList, "ata4".toList, "ata5".toList, "ata6".toList,
          "ata1".toList, "ata2".toList],
        hctl_map_ := ["2:0:0:0".toList, "3:0:0:0".toList, "4:0:0:0".toList, "5:0:0:0".toList,
          "0:0:0:0".toList, "1:0:0:0".toList],
        serial_map_ := [],
        detected_model_ := trimString dmidecode_output } := by
  have hf : (find (trimString dmidecode_output) "DXP6800".toList).isSome = true :=
    (find_isSome_iff _ _).mpr h
  have hne : (trimString dmidecode_output).isEmpty = false := by
    cases ht : trimString dmidecode_output with
    | nil =>
      rw [ht] at hf
      exact absurd hf (by decide)
    | cons a t => rfl
  simp only [DiskMapper.construct, detectUgreenModel, initializeDefaultMappings, hne,
    Bool.not_false, if_true, applyModelSpecificMappings, hf]

/-- The mapper that the constructor builds on a hardware identifier whose trimmed
text is empty or does not contain `DXP6800`. -/
theorem construct_default (method : MappingMethod) (dmidecode_output : Str)
    (h : trimString dmidecode_output = [] ∨
      ¬ List.IsInfix "DXP6800".toList (trimString dmidecode_output)) :
    DiskMapper.construct method dmidecode_output =
      { mapping_method_ := method,
        ata_map_ := ["ata1".toList, "ata2".toList, "ata3".toList, "ata4".toList,
          "ata5".toList, "ata6".toList, "ata7".toList, "ata8".toList],
        hctl_map_ := ["0:0:0:0".toList, "1:0:0:0".toList, "2:0:0:0".toList, "3:0:0:0".toList,
          "4:0:0:0".toList, "5:0:0:0".toList, "6:0:0:0".toList, "7:0:0:0".toList],
        serial_map_ := [],
        detected_model_ := trimString dmidecode_output } := by
  by_cases hempty : trimString dmidecode_output = []
  · simp only [DiskMapper.construct, detectUgreenModel, initializeDefaultMappings, hempty,
      List.isEmpty_nil, Bool.not_true, Bool.false_eq_true, if_false]
  · have hf : (find (trimString dmidecode_output) "DXP6800".toList).isSome = false :=
      find_isSome_false _ _ (h.resolve_left hempty)
    have hne : (trimString dmidecode_output).isEmpty = false := by
      cases ht : trimString dmidecode_output with
      | nil => exact absurd ht hempty
      | cons a t => rfl
    simp only [DiskMapper.construct, detectUgreenModel, initializeDefaultMappings, hne,
      Bool.not_false, if_true, applyModelSpecificMappings, hf, Bool.false_eq_true, if_false]

/-- An index outside `0..7` resolves to the empty string. -/
theorem getDiskDevice_out_of_range (m : DiskMapper) (runCommand : Str → Str)
    (disk_index : Int) (h : disk_index < 0 ∨ 8 ≤ disk_index) :
    getDiskDevice m runCommand disk_index = [] := by
  unfold getDiskDevice
  rw [if_pos (by omega)]

/-- An index at or past the length of the table of the active strategy resolves to
the empty string. -/
theorem getDiskDevice_past_table (m : DiskMapper) (runCommand : Str → Str)
    (disk_index : Int)
    (h : (m.mapping_method_ = MappingMethod.ATA ∧ (m.ata_map_.length : Int) ≤ disk_index) ∨
      (m.mapping_method_ = MappingMethod.HCTL ∧ (m.hctl_map_.length : Int) ≤ disk_index) ∨
      (m.mapping_method_ = MappingMethod.SERIAL ∧ (m.serial_map_.length : Int) ≤ disk_index)) :
    getDiskDevice m runCommand disk_index = [] := by
  by_cases hguard : disk_index < 0 ∨ 8 ≤ disk_index
  · exact getDiskDevice_out_of_range m runCommand disk_index hguard
  · have hsmall : ∀ n : Nat, (n : Int) ≤ disk_index → ¬ disk_index < wrapInt32 (n : Int) := by
      intro n hn
      rw [wrapInt32_length n (by norm_num; omega)]
      omega
    unfold getDiskDevice
    rw [if_neg (by omega)]
    rcases h with ⟨hm, hl⟩ | ⟨hm, hl⟩ | ⟨hm, hl⟩
    · simp only [hm, if_neg (hsmall _ hl)]
    · simp only [hm, if_neg (hsmall _ hl)]
    · simp only [hm, if_neg (hsmall _ hl)]

/-- C15: whatever the commands would print, `getDiskDevice` returns the empty
string for an index below 0 or at least 8, and for an index at or past the length
of the table of the active strategy: slots 6 and 7 on the DXP6800 tables, a slot
past the serial list, and every slot when `SERIAL` is selected and the serial
list is empty. -/
theorem C15_unmapped_slot_is_empty (m : DiskMapper) (runCommand : Str → Str)
    (disk_index : Int) :
    ((disk_index < 0 ∨ 8 ≤ disk_index) → getDiskDevice m runCommand disk_index = []) ∧
    (((m.mapping_method_ = MappingMethod.ATA ∧ (m.ata_map_.length : Int) ≤ disk_index) ∨
        (m.mapping_method_ = MappingMethod.HCTL ∧ (m.hctl_map_.length : Int) ≤ disk_index) ∨
        (m.mapping_method_ = MappingMethod.SERIAL ∧
          (m.serial_map_.length : Int) ≤ disk_index)) →
      getDiskDevice m runCommand disk_index = []) ∧
    (∀ (method : MappingMethod) (model : Str),
      List.IsInfix "DXP6800".toList (trimString model) → method ≠ MappingMethod.SERIAL →
      (disk_index = 6 ∨ disk_index = 7) →
      getDiskDevice (DiskMapper.construct method model) runCommand disk_index = []) ∧
    (∀ (method : MappingMethod) (model : Str) (serials : List Str),
      (serials.length : Int) ≤ disk_index →
      getDiskDevice
        (setSerialMap (setMappingMethod (DiskMapper.construct method model) MappingMethod.SERIAL)
          serials) runCommand disk_index = []) ∧
    (∀ (method : MappingMethod) (model : Str),
      getDiskDevice
        (setSerialMap (setMappingMethod (DiskMapper.construct method model) MappingMethod.SERIAL)
          []) runCommand disk_index = []) := by
  refine ⟨getDiskDevice_out_of_range m runCommand disk_index,
    getDiskDevice_past_table m runCommand disk_index, ?_, ?_, ?_⟩
  · intro method model hdxp hmethod hidx
    apply getDiskDevice_past_table
    rw [construct_dxp6800 method model hdxp]
    cases method with
    | ATA => left; refine ⟨rfl, ?_⟩; simp only [List.length_cons, List.length_nil]; omega
    | HCTL =>
      right; left; refine ⟨rfl, ?_⟩; simp only [List.length_cons, List.length_nil]; omega
    | SERIAL => exact absurd rfl hmethod
  · intro method model serials hlen
    apply getDiskDevice_past_table
    right; right
    exact ⟨rfl, hlen⟩
  · intro method model
    by_cases hneg : disk_index < 0
    · exact getDiskDevice_out_of_range _ runCommand disk_index (Or.inl hneg)
    · apply getDiskDevice_past_table
      right; right
      refine ⟨rfl, ?_⟩
      simp only [setSerialMap, List.length_nil]
      omega

/-- C15 on the DXP6800 tables with strategy `ATA`, slot 6, and a command runner
under which every enumerated device would match: the result is empty. -/
theorem C15_unmapped_slot_is_empty_witness :
    getDiskDevice (DiskMapper.construct MappingMethod.ATA "DXP6800 Pro\n".toList)
      (fun _ => "sda ata1 ata2 ata3 ata4 ata5 ata6 ata7 ata8\n".toList) 6 = [] :=
  (C15_unmapped_slot_is_empty
    (DiskMapper.construct MappingMethod.ATA "DXP6800 Pro\n".toList)
    (fun _ => "sda ata1 ata2 ata3 ata4 ata5 ata6 ata7 ata8\n".toList) 6).2.2.1
    MappingMethod.ATA "DXP6800 Pro\n".toList ((find_isSome_iff _ _).mp (by decide))
    (by decide) (Or.inl rfl)

/-- C16: the constructor leaves the 8-entry tables, slot `i` with `ata(i+1)` and
`i:0:0:0`, when the trimmed hardware identifier is empty or does not contain
`DXP6800`; when it contains `DXP6800` the tables are the 6-entry wiring, in which
the number of the `ata` key of each slot is the host number of its `HCTL` key
plus one. -/
theorem C16_tables_after_construction (method : MappingMethod) (s : Str) :
    ((trimString s = [] ∨ ¬ List.IsInfix "DXP6800".toList (trimString s)) →
      (DiskMapper.construct method s).ata_map_ =
          ["ata1".toList, "ata2".toList, "ata3".toList, "ata4".toList, "ata5".toList,
            "ata6".toList, "ata7".toList, "ata8".toList] ∧
        (DiskMapper.construct method s).hctl_map_ =
          ["0:0:0:0".toList, "1:0:0:0".toList, "2:0:0:0".toList, "3:0:0:0".toList,
            "4:0:0:0".toList, "5:0:0:0".toList, "6:0:0:0".toList, "7:0:0:0".toList] ∧
        ∀ i : Nat, i < 8 →
          (DiskMapper.construct method s).ata_map_[i]? =
              some ("ata".toList ++ (Nat.repr (i + 1)).toList) ∧
            (DiskMapper.construct method s).hctl_map_[i]? =
              some ((Nat.repr i).toList ++ ":0:0:0".toList)) ∧
    (List.IsInfix "DXP6800".toList (trimString s) →
      (DiskMapper.construct method s).ata_map_ =
          ["ata3".toList, "ata4".toList, "ata5".toList, "ata6".toList, "ata1".toList,
            "ata2".toList] ∧
        (DiskMapper.construct method s).hctl_map_ =
          ["2:0:0:0".toList, "3:0:0:0".toList, "4:0:0:0".toList, "5:0:0:0".toList,
            "0:0:0:0".toList, "1:0:0:0".toList] ∧
        ∀ i : Nat, i < 6 → ∃ host : Nat,
          (DiskMapper.construct method s).hctl_map_[i]? =
              some ((Nat.repr host).toList ++ ":0:0:0".toList) ∧
            (DiskMapper.construct method s).ata_map_[i]? =
              some ("ata".toList ++ (Nat.repr (host + 1)).toList)) := by
  constructor
  · intro h
    rw [construct_default method s h]
    refine ⟨rfl, rfl, ?_⟩
    intro i hi
    dsimp only
    interval_cases i <;> decide
  · intro h
    rw [construct_dxp6800 method s h]
    refine ⟨rfl, rfl, ?_⟩
    intro i hi
    dsimp only
    refine ⟨([2, 3, 4, 5, 0, 1] : List Nat).getD i 0, ?_⟩
    interval_cases i <;> decide

/-- C16 at the identifier `DXP6800 Pro`: the 6-entry wiring. -/
theorem C16_tables_after_construction_witness :
    (DiskMapper.construct MappingMethod.ATA "DXP6800 Pro\n".toList).ata_map_ =
        ["ata3".toList, "ata4".toList, "ata5".toList, "ata6".toList, "ata1".toList,
          "ata2".toList] ∧
      (DiskMapper.construct MappingMethod.ATA "DXP6800 Pro\n".toList).hctl_map_ =
        ["2:0:0:0".toList, "3:0:0:0".toList, "4:0:0:0".toList, "5:0:0:0".toList,
          "0:0:0:0".toList, "1:0:0:0".toList] :=
  have h := (C16_tables_after_construction MappingMethod.ATA "DXP6800 Pro\n".toList).2
    ((find_isSome_iff _ _).mp (by decide))
  ⟨h.1, h.2.1⟩

/-! ### Disk monitoring cycle -/

/-- The call that `monitorDisks` makes for slot `i`, by whether the slot resolves
to a device. -/
theorem monitorDisks_getElem (config : UgreenMonitorConfig) (getDiskDevice : Int → Str)
    (checkSmartStatus : Str → SmartStatus) (i : Nat) (hi : i < 8) :
    (monitorDisks config getDiskDevice checkSmartStatus)[i]? =
      some
        (if getDiskDevice (i : Int) = [] then
          { led_name := "disk".toList ++ (Nat.repr (i + 1)).toList,
            color := config.color_disabled, brightness := 0 }
        else
          { led_name := "disk".toList ++ (Nat.repr (i + 1)).toList,
            color :=
              match checkSmartStatus (getDiskDevice (i : Int)) with
              | .HEALTHY => config.color_healthy
              | .WARNING => config.color_warning
              | .CRITICAL => config.color_critical
              | .UNAVAILABLE => config.color_offline
              | .DEVICE_NOT_FOUND => config.color_disabled,
            brightness := 255 }) := by
  have hslot : ∀ (j : Nat) (name : Str), j < 8 →
      monitorDisks_slot config getDiskDevice checkSmartStatus j name =
        if getDiskDevice (j : Int) = [] then
          { led_name := name, color := config.color_disabled, brightness := 0 }
        else
          { led_name := name,
            color :=
              match checkSmartStatus (getDiskDevice (j : Int)) with
              | .HEALTHY => config.color_healthy
              | .WARNING => config.color_warning
              | .CRITICAL => config.color_critical
              | .UNAVAILABLE => config.color_offline
              | .DEVICE_NOT_FOUND => config.color_disabled,
            brightness := 255 } := by
    intro j name hj
    unfold monitorDisks_slot
    rw [wrapInt32_length j (by norm_num; omega)]
    cases hd : getDiskDevice (j : Int) with
    | nil => simp
    | cons a t => simp
  simp only [monitorDisks, led_names, monitorDisks_from]
  interval_cases i
  all_goals
    simp only [List.getElem?_cons_zero, List.getElem?_cons_succ, Option.some.injEq]
    rw [hslot _ _ (by norm_num)]
    rfl

/-- C17: one cycle of `monitorDisks` makes eight calls of `updateLed`; for slot
`i` the LED `disk(i+1)` gets (`color_disabled`, 0) when the slot resolves to no
device, whatever the classifier would say, and otherwise the configured colour of
the classified state at brightness 255; so the brightness is 0 exactly for the
unresolved slots, and with slot 0 unresolved and slot 1 classified `CRITICAL` the
first two calls are (`disk1`, `color_disabled`, 0) and (`disk2`, `color_critical`,
255). -/
theorem C17_monitorDisks_cycle (config : UgreenMonitorConfig) (getDiskDevice : Int → Str)
    (checkSmartStatus : Str → SmartStatus) :
    (monitorDisks config getDiskDevice checkSmartStatus).length = 8 ∧
    (∀ i : Nat, i < 8 →
      (monitorDisks config getDiskDevice checkSmartStatus)[i]? =
        some
          (if getDiskDevice (i : Int) = [] then
            { led_name := "disk".toList ++ (Nat.repr (i + 1)).toList,
              color := config.color_disabled, brightness := 0 }
          else
            { led_name := "disk".toList ++ (Nat.repr (i + 1)).toList,
              color :=
                match checkSmartStatus (getDiskDevice (i : Int)) with
                | .HEALTHY => config.color_healthy
                | .WARNING => config.color_warning
                | .CRITICAL => config.color_critical
                | .UNAVAILABLE => config.color_offline
                | .DEVICE_NOT_FOUND => config.color_disabled,
              brightness := 255 })) ∧
    (∀ (i : Nat) (call : UpdateLedCall), i < 8 →
      (monitorDisks config getDiskDevice checkSmartStatus)[i]? = some call →
      (call.brightness = 0 ↔ getDiskDevice (i : Int) = [])) ∧
    (getDiskDevice 0 = [] → getDiskDevice 1 ≠ [] →
      checkSmartStatus (getDiskDevice 1) = SmartStatus.CRITICAL →
      (monitorDisks config getDiskDevice checkSmartStatus)[0]? =
          some { led_name := "disk1".toList, color := config.color_disabled, brightness := 0 } ∧
        (monitorDisks config getDiskDevice checkSmartStatus)[1]? =
          some { led_name := "disk2".toList, color := config.color_critical,
                 brightness := 255 }) := by
  refine ⟨rfl, monitorDisks_getElem config getDiskDevice checkSmartStatus, ?_, ?_⟩
  · intro i call hi hcall
    rw [monitorDisks_getElem config getDiskDevice checkSmartStatus i hi] at hcall
    have hc := Option.some.inj hcall
    by_cases hd : getDiskDevice (i : Int) = []
    · rw [if_pos hd] at hc
      rw [← hc]
      simp [hd]
    · rw [if_neg hd] at hc
      rw [← hc]
      simp [hd]
  · intro h0 h1 hcrit
    have e0 := monitorDisks_getElem config getDiskDevice checkSmartStatus 0 (by norm_num)
    have e1 := monitorDisks_getElem config getDiskDevice checkSmartStatus 1 (by norm_num)
    simp only [Nat.cast_zero, Nat.cast_one] at e0 e1
    rw [if_pos h0] at e0
    rw [if_neg h1, hcrit] at e1
    exact ⟨e0, e1⟩

/-- C17 with the default colours, slot 0 unresolved and slot 1 resolved to
`/dev/sdb`, classified `CRITICAL`: the first two calls are (`disk1`, black, 0) and
(`disk2`, red, 255). -/
theorem C17_monitorDisks_cycle_witness :
    (monitorDisks UgreenMonitorConfig.construct
        (fun i => if i = 1 then "/dev/sdb".toList else [])
        (fun _ => SmartStatus.CRITICAL))[0]? =
        some { led_name := "disk1".toList, color := ⟨0, 0, 0⟩, brightness := 0 } ∧
      (monitorDisks UgreenMonitorConfig.construct
        (fun i => if i = 1 then "/dev/sdb".toList else [])
        (fun _ => SmartStatus.CRITICAL))[1]? =
        some { led_name := "disk2".toList, color := ⟨255, 0, 0⟩, brightness := 255 } :=
  (C17_monitorDisks_cycle UgreenMonitorConfig.construct
    (fun i => if i = 1 then "/dev/sdb".toList else [])
    (fun _ => SmartStatus.CRITICAL)).2.2.2 (by decide) (by decide) rfl

/-! ### Exit codes classified `HEALTHY` -/

set_option maxRecDepth 100000 in
/-- The exit codes `0..255` that `interpretExitCode` classifies `HEALTHY`. -/
theorem interpretExitCode_healthy_byte (n : Fin 256) :
    interpretExitCode (n.val : Int) = SmartStatus.HEALTHY ↔ (n.val = 0 ∨ n.val = 32) := by
  revert n
  decide

/-- C20, as stated, fails: the exit code 32, in `0..255` and with bit 5 set, is
classified `HEALTHY`. -/
theorem C20_healthy_nonzero_counterexample :
    (0 : Int) ≤ 32 ∧ (32 : Int) ≤ 255 ∧ (32 : Int) ≠ 0 ∧ (32 : Int) / 32 % 2 = 1 ∧
      interpretExitCode 32 = SmartStatus.HEALTHY := by
  decide

/-- C20, amended: for an exit code in `0..255`, `interpretExitCode` returns
`HEALTHY` exactly when none of bits 0..4, 6 and 7 is set, that is for the exit
codes 0 and 32; bit 5 is not examined. -/
theorem C20_healthy_iff (exit_code : Int) (h0 : 0 ≤ exit_code) (h255 : exit_code ≤ 255) :
    (interpretExitCode exit_code = SmartStatus.HEALTHY ↔
        (exit_code % 32 = 0 ∧ exit_code / 64 = 0)) ∧
      (interpretExitCode exit_code = SmartStatus.HEALTHY ↔
        (exit_code = 0 ∨ exit_code = 32)) := by
  obtain ⟨n, rfl⟩ := Int.eq_ofNat_of_zero_le h0
  have hn : n < 256 := by omega
  have key := interpretExitCode_healthy_byte ⟨n, hn⟩
  simp only at key
  constructor
  · rw [key]
    omega
  · rw [key]
    omega

/-- C20, amended, at the exit code 32: `HEALTHY`. -/
theorem C20_healthy_iff_witness : interpretExitCode 32 = SmartStatus.HEALTHY :=
  (C20_healthy_iff 32 (by decide) (by decide)).2.mpr (Or.inr rfl)

/-! ### Pool aggregation, in closed form -/

/-- An accumulator that is neither `ONLINE` nor changed by a `FAULTED` pool stays
as it is. -/
theorem foldl_step_stuck (acc : ZfsPoolHealth) (l : List ZfsPoolHealth)
    (hacc : acc ≠ ZfsPoolHealth.ONLINE) (hl : ZfsPoolHealth.FAULTED ∉ l) :
    l.foldl monitorZfsPools_step acc = acc := by
  induction l with
  | nil => rfl
  | cons h t ih =>
    have hh : h ≠ ZfsPoolHealth.FAULTED := fun e => hl (e ▸ List.mem_cons_self h t)
    have hs : monitorZfsPools_step acc h = acc := by
      cases acc <;> cases h <;> first | rfl | exact absurd rfl hacc | exact absurd rfl hh
    rw [List.foldl_cons, hs]
    exact ih (fun hm => hl (List.mem_cons_of_mem h hm))

/-- Without a `FAULTED` pool the loop ends with the first state other than
`ONLINE`, `UNAVAIL` standing for `UNKNOWN` too. -/
theorem foldl_step_first (l : List ZfsPoolHealth) (hl : ZfsPoolHealth.FAULTED ∉ l) :
    l.foldl monitorZfsPools_step ZfsPoolHealth.ONLINE =
      match l.find? (fun h => decide (h ≠ ZfsPoolHealth.ONLINE)) with
      | none => ZfsPoolHealth.ONLINE
      | some h =>
          if h = ZfsPoolHealth.UNAVAIL ∨ h = ZfsPoolHealth.UNKNOWN then ZfsPoolHealth.UNAVAIL
          else h := by
  induction l with
  | nil => rfl
  | cons h t ih =>
    have hh : h ≠ ZfsPoolHealth.FAULTED := fun e => hl (e ▸ List.mem_cons_self h t)
    have ht : ZfsPoolHealth.FAULTED ∉ t := fun hm => hl (List.mem_cons_of_mem h hm)
    rw [List.foldl_cons]
    cases h with
    | ONLINE => simpa [monitorZfsPools_step] using ih ht
    | FAULTED => exact absurd rfl hh
    | DEGRADED =>
      rw [show monitorZfsPools_step .ONLINE .DEGRADED = .DEGRADED from rfl,
        foldl_step_stuck _ t (by decide) ht]
      simp
    | UNAVAIL =>
      rw [show monitorZfsPools_step .ONLINE .UNAVAIL = .UNAVAIL from rfl,
        foldl_step_stuck _ t (by decide) ht]
      simp
    | SCRUB_ACTIVE =>
      rw [show monitorZfsPools_step .ONLINE .SCRUB_ACTIVE = .SCRUB_ACTIVE from rfl,
        foldl_step_stuck _ t (by decide) ht]
      simp
    | RESILVER_ACTIVE =>
      rw [show monitorZfsPools_step .ONLINE .RESILVER_ACTIVE = .RESILVER_ACTIVE from rfl,
        foldl_step_stuck _ t (by decide) ht]
      simp
    | SCRUB_ERRORS =>
      rw [show monitorZfsPools_step .ONLINE .SCRUB_ERRORS = .SCRUB_ERRORS from rfl,
        foldl_step_stuck _ t (by decide) ht]
      simp
    | UNKNOWN =>
      rw [show monitorZfsPools_step .ONLINE .UNKNOWN = .UNAVAIL from rfl,
        foldl_step_stuck _ t (by decide) ht]
      simp

/-- A list of `ONLINE` pools aggregates to `ONLINE`. -/
theorem foldl_step_all_online (l : List ZfsPoolHealth)
    (h : ∀ x ∈ l, x = ZfsPoolHealth.ONLINE) :
    l.foldl monitorZfsPools_step ZfsPoolHealth.ONLINE = ZfsPoolHealth.ONLINE := by
  induction l with
  | nil => rfl
  | cons a t ih =>
    rw [List.foldl_cons, h a (List.mem_cons_self a t)]
    exact ih (fun x hx => h x (List.mem_cons_of_mem a hx))

/-- C21: the aggregation of `monitorZfsPools` is a function of the list of pool
states of the call alone, the accumulator being a local that starts at `ONLINE`;
a non-empty list of `ONLINE` states aggregates to `ONLINE`, so `[FAULTED, ONLINE]`
gives `FAULTED` and `[ONLINE, ONLINE]`, aggregated after it, gives `ONLINE`. -/
theorem C21_aggregation_has_no_memory :
    (∀ healths : List ZfsPoolHealth, healths ≠ [] →
      (∀ x ∈ healths, x = ZfsPoolHealth.ONLINE) →
      monitorZfsPools_overall healths = ZfsPoolHealth.ONLINE) ∧
    monitorZfsPools_overall [.FAULTED, .ONLINE] = ZfsPoolHealth.FAULTED ∧
    monitorZfsPools_overall [.ONLINE, .ONLINE] = ZfsPoolHealth.ONLINE :=
  ⟨fun healths _ h => foldl_step_all_online healths h, by decide, by decide⟩

/-- C21 at `[ONLINE, ONLINE]`. -/
theorem C21_aggregation_has_no_memory_witness :
    monitorZfsPools_overall [.ONLINE, .ONLINE] = ZfsPoolHealth.ONLINE :=
  C21_aggregation_has_no_memory.1 [.ONLINE, .ONLINE] (by decide) (by decide)

/-- C25: the overall state of the aggregation loop is `FAULTED` when the list
contains `FAULTED`; otherwise `ONLINE` when every state is `ONLINE`; otherwise the
first state other than `ONLINE`, in list order, with `UNAVAIL` for both `UNAVAIL`
and `UNKNOWN`. Two lists with the same states in another order can aggregate
differently. -/
theorem C25_first_non_online_wins (healths : List ZfsPoolHealth) :
    (monitorZfsPools_overall healths =
      if ZfsPoolHealth.FAULTED ∈ healths then ZfsPoolHealth.FAULTED
      else
        match healths.find? (fun h => decide (h ≠ ZfsPoolHealth.ONLINE)) with
        | none => ZfsPoolHealth.ONLINE
        | some h =>
            if h = ZfsPoolHealth.UNAVAIL ∨ h = ZfsPoolHealth.UNKNOWN then ZfsPoolHealth.UNAVAIL
            else h) ∧
    ((∀ x ∈ healths, x = ZfsPoolHealth.ONLINE) →
      monitorZfsPools_overall healths = ZfsPoolHealth.ONLINE) ∧
    monitorZfsPools_overall [.DEGRADED, .SCRUB_ACTIVE] = ZfsPoolHealth.DEGRADED ∧
    monitorZfsPools_overall [.SCRUB_ACTIVE, .DEGRADED] = ZfsPoolHealth.SCRUB_ACTIVE := by
  refine ⟨?_, foldl_step_all_online healths, by decide, by decide⟩
  by_cases hf : ZfsPoolHealth.FAULTED ∈ healths
  · rw [if_pos hf]
    obtain ⟨before, after, rfl⟩ := List.append_of_mem hf
    unfold monitorZfsPools_overall
    rw [List.foldl_append, List.foldl_cons]
    exact foldl_step_FAULTED after
  · rw [if_neg hf]
    exact foldl_step_first healths hf

/-- C25 at `[ONLINE, UNKNOWN, DEGRADED]`: the first state other than `ONLINE` is
`UNKNOWN`, reported as `UNAVAIL`. -/
theorem C25_first_non_online_wins_witness :
    monitorZfsPools_overall [.ONLINE, .UNKNOWN, .DEGRADED] = ZfsPoolHealth.UNAVAIL :=
  (C25_first_non_online_wins [.ONLINE, .UNKNOWN, .DEGRADED]).1.trans (by decide)

/-! ### Network classifier without a ping target -/

/-- The result of `checkNetworkStatus` with an empty ping target, as a function of
the interface list. -/
theorem checkNetworkStatus_no_target (interfaces : List NetworkInterface) (probe : Bool)
    (hlen : interfaces.length < 2 ^ 31) :
    checkNetworkStatus interfaces [] probe =
      if interfaces = [] then NetworkStatus.UNKNOWN
      else if interfaces.any (fun i => i.is_up && i.is_bridge) then NetworkStatus.HEALTHY
      else if interfaces.any (fun i => i.is_up) then NetworkStatus.WARNING
      else NetworkStatus.CRITICAL := by
  obtain ⟨h1, h2, -⟩ := checkNetworkStatus_foldl interfaces ⟨0, false, false⟩
    (le_refl _) (by simp only [zero_add]; exact_mod_cast hlen)
  have hup : (interfaces.foldl checkNetworkStatus_step ⟨0, false, false⟩).up_interfaces > 0
      ↔ interfaces.any (fun i => i.is_up) = true := by
    rw [h1]
    simp only [zero_add, gt_iff_lt, Nat.cast_pos, List.countP_pos_iff, List.any_eq_true]
  unfold checkNetworkStatus
  by_cases hnil : interfaces = []
  · subst hnil; rfl
  · have hne : interfaces.isEmpty = false := by
      cases interfaces with
      | nil => exact absurd rfl hnil
      | cons a t => rfl
    simp only [hne, hnil, if_false, Bool.false_eq_true]
    simp only [h2, Bool.false_or, List.isEmpty_nil, Bool.not_true, Bool.and_false,
      Bool.false_eq_true, if_false, Bool.or_false]
    by_cases hu : interfaces.any (fun i => i.is_up) = true
    · simp only [hup.mpr hu, if_true, hu]
    · have hu2 : ¬ (interfaces.foldl checkNetworkStatus_step ⟨0, false, false⟩).up_interfaces > 0 :=
        fun h => hu (hup.mp h)
      simp only [hu2, if_false, hu, Bool.false_eq_true]

/-- C26: with an empty ping target the result of `checkNetworkStatus` does not
depend on the probe, which counts as failed: a non-empty interface list with no
bridge up and a non-bridge interface up gives `WARNING`, and a list without a
bridge that is up never gives `HEALTHY`. -/
theorem C26_no_target_no_probe (interfaces : List NetworkInterface) (probe : Bool)
    (hlen : interfaces.length < 2 ^ 31) :
    checkNetworkStatus interfaces [] probe = checkNetworkStatus interfaces [] false ∧
    (interfaces.any (fun i => i.is_up && i.is_bridge) = false →
      interfaces.any (fun i => i.is_up && !i.is_bridge) = true →
      checkNetworkStatus interfaces [] probe = NetworkStatus.WARNING) ∧
    (interfaces.any (fun i => i.is_up && i.is_bridge) = false →
      checkNetworkStatus interfaces [] probe ≠ NetworkStatus.HEALTHY) := by
  refine ⟨?_, ?_, ?_⟩
  · rw [checkNetworkStatus_no_target interfaces probe hlen,
      checkNetworkStatus_no_target interfaces false hlen]
  · intro hb hp
    have hu : interfaces.any (fun i => i.is_up) = true := by
      simp only [List.any_eq_true, Bool.and_eq_true] at hp ⊢
      obtain ⟨x, hx, hxu, -⟩ := hp
      exact ⟨x, hx, hxu⟩
    have hnil : interfaces ≠ [] := by
      intro e
      rw [e] at hu
      exact absurd hu (by decide)
    rw [checkNetworkStatus_no_target interfaces probe hlen]
    simp only [hnil, if_false, hb, Bool.false_eq_true, hu, if_true]
  · intro hb
    rw [checkNetworkStatus_no_target interfaces probe hlen]
    simp only [hb, Bool.false_eq_true, if_false]
    split_ifs <;> decide

/-- C26 at one physical interface that is up, an empty ping target, and a probe
that would succeed: `WARNING`. -/
theorem C26_no_target_no_probe_witness :
    checkNetworkStatus [⟨"eth0".toList, true, false, "UP".toList, 1000⟩] [] true
      = NetworkStatus.WARNING :=
  (C26_no_target_no_probe [⟨"eth0".toList, true, false, "UP".toList, 1000⟩] true
    (by decide)).2.1 (by decide) (by decide)

/-! ### Substring match of the device name -/

/-- C22: a call of `getDiskDevice` leaves the mapping method and the three key
tables as they were, and a second call with the same index and the same command
outputs returns the same device path. -/
theorem C22_getDiskDevice_deterministic (m : DiskMapper) (runCommand : Str → Str)
    (disk_index : Int) :
    (getDiskDevice_call m runCommand disk_index).1.mapping_method_ = m.mapping_method_ ∧
    (getDiskDevice_call m runCommand disk_index).1.ata_map_ = m.ata_map_ ∧
    (getDiskDevice_call m runCommand disk_index).1.hctl_map_ = m.hctl_map_ ∧
    (getDiskDevice_call m runCommand disk_index).1.serial_map_ = m.serial_map_ ∧
    (getDiskDevice_call (getDiskDevice_call m runCommand disk_index).1 runCommand
        disk_index).2 = (getDiskDevice_call m runCommand disk_index).2 :=
  ⟨rfl, rfl, rfl, rfl, rfl⟩

/-! ### Exit code of a command that cannot be launched -/

/-- C30: when `popen` fails, `executeWithExitCode` returns -1 with an empty
output; `interpretExitCode` classifies -1 as `CRITICAL`, the test of bits 3 and 4
being the first; so `checkSmartStatus` on an existing device, with smartctl
available, returns `CRITICAL` and not `UNAVAILABLE`. -/
theorem C30_launch_failure_is_critical :
    CommandExecutor.executeWithExitCode none = (-1, []) ∧
    interpretExitCode (-1) = SmartStatus.CRITICAL ∧
    checkSmartStatus true true (CommandExecutor.executeWithExitCode none).1
        (CommandExecutor.executeWithExitCode none).2 = SmartStatus.CRITICAL ∧
    checkSmartStatus true true (CommandExecutor.executeWithExitCode none).1
        (CommandExecutor.executeWithExitCode none).2 ≠ SmartStatus.UNAVAILABLE := by
  have hc : interpretExitCode (-1) = SmartStatus.CRITICAL :=
    interpretExitCode_critical (-1) (Or.inl (by decide))
  have hs : checkSmartStatus true true (CommandExecutor.executeWithExitCode none).1
      (CommandExecutor.executeWithExitCode none).2 = SmartStatus.CRITICAL := by
    show interpretExitCode (-1) = SmartStatus.CRITICAL
    exact hc
  refine ⟨rfl, hc, hs, ?_⟩
  rw [hs]
  decide

/-! ### Scrub and resilver indicator -/

/-- What the loop of `monitorScrubResilver` computes, from any flags. -/
theorem monitorScrubResilver_foldl (infos : List ZfsPoolInfo) (f : ScrubFlags) :
    infos.foldl monitorScrubResilver_step f =
      { scrub_active := f.scrub_active || infos.any (fun i => i.scrub_active),
        resilver_active := f.resilver_active || infos.any (fun i => i.resilver_active),
        scrub_errors := f.scrub_errors || infos.any (fun i => i.scrub_errors) } := by
  induction infos generalizing f with
  | nil => simp
  | cons a t ih =>
    rw [List.foldl_cons, ih]
    cases h1 : a.scrub_active <;> cases h2 : a.resilver_active <;> cases h3 : a.scrub_errors <;>
      simp [monitorScrubResilver_step, h1, h2, h3]

/-- A test over a list does not depend on the order of the list. -/
theorem any_perm {α : Type} (p : α → Bool) (l1 l2 : List α) (h : List.Perm l1 l2) :
    l1.any p = l2.any p := by
  rw [Bool.eq_iff_iff]
  simp only [List.any_eq_true]
  constructor
  · rintro ⟨x, hx, hp⟩
    exact ⟨x, h.mem_iff.mp hx, hp⟩
  · rintro ⟨x, hx, hp⟩
    exact ⟨x, h.mem_iff.mpr hx, hp⟩

/-- The call that `monitorScrubResilver` makes when scrub monitoring is on. -/
theorem monitorScrubResilver_eq (config : ZfsMonitorConfig) (infos : List ZfsPoolInfo)
    (hon : config.monitor_scrub_status = true) :
    monitorScrubResilver config infos =
      some
        { led_name := config.network_led,
          color :=
            if infos.any (fun i => i.resilver_active) then config.color_resilver
            else if infos.any (fun i => i.scrub_active) then config.color_scrub_active
            else if infos.any (fun i => i.scrub_errors) then config.color_scrub_progress
            else config.color_online,
          brightness :=
            if infos.any (fun i => i.scrub_active) || infos.any (fun i => i.resilver_active)
            then 255 else 128 } := by
  unfold monitorScrubResilver
  simp only [hon, Bool.not_true, Bool.false_eq_true, if_false, monitorScrubResilver_foldl,
    Bool.false_or]

/-- C28: with scrub monitoring on, `monitorScrubResilver` drives the configured
network LED with the resilver colour when a pool is resilvering, otherwise the
scrub colour when a pool is scrubbing, otherwise the scrub-errors colour when a
pool has `scrub_errors`, otherwise the online colour; the brightness is 255 when
a pool is scrubbing or resilvering and 128 otherwise; and the call is the same
for the pools in any other order. -/
theorem C28_scrub_indicator (config : ZfsMonitorConfig) (infos : List ZfsPoolInfo)
    (hon : config.monitor_scrub_status = true) :
    monitorScrubResilver config infos =
      some
        { led_name := config.network_led,
          color :=
            if infos.any (fun i => i.resilver_active) then config.color_resilver
            else if infos.any (fun i => i.scrub_active) then config.color_scrub_active
            else if infos.any (fun i => i.scrub_errors) then config.color_scrub_progress
            else config.color_online,
          brightness :=
            if infos.any (fun i => i.scrub_active) || infos.any (fun i => i.resilver_active)
            then 255 else 128 } ∧
    (∀ call, monitorScrubResilver config infos = some call →
      (call.brightness = 255 ↔
        (infos.any (fun i => i.scrub_active) || infos.any (fun i => i.resilver_active)) = true) ∧
      (call.brightness = 128 ↔
        (infos.any (fun i => i.scrub_active) || infos.any (fun i => i.resilver_active)) = false)) ∧
    (∀ infos2 : List ZfsPoolInfo, List.Perm infos infos2 →
      monitorScrubResilver config infos2 = monitorScrubResilver config infos) := by
  refine ⟨monitorScrubResilver_eq config infos hon, ?_, ?_⟩
  · intro call hcall
    rw [monitorScrubResilver_eq config infos hon] at hcall
    have hc := Option.some.inj hcall
    rw [← hc]
    cases (infos.any (fun i => i.scrub_active) || infos.any (fun i => i.resilver_active)) <;>
      simp
  · intro infos2 hperm
    rw [monitorScrubResilver_eq config infos hon, monitorScrubResilver_eq config infos2 hon,
      any_perm _ infos infos2 hperm, any_perm _ infos infos2 hperm,
      any_perm _ infos infos2 hperm]

/-- C28 with the default configuration and two pools, the first scrubbing and the
second resilvering: the network LED gets the resilver colour at brightness 255. -/
theorem C28_scrub_indicator_witness :
    monitorScrubResilver ZfsMonitorConfig.construct
      [{ name := "tank".toList, health := .SCRUB_ACTIVE, scan_status := [],
         scrub_active := true, resilver_active := false, scrub_errors := false, errors := 0 },
       { name := "backup".toList, health := .RESILVER_ACTIVE, scan_status := [],
         scrub_active := false, resilver_active := true, scrub_errors := false, errors := 0 }]
      = some { led_name := "netdev".toList, color := ⟨0, 255, 255⟩, brightness := 255 } :=
  (C28_scrub_indicator ZfsMonitorConfig.construct
    [{ name := "tank".toList, health := .SCRUB_ACTIVE, scan_status := [],
       scrub_active := true, resilver_active := false, scrub_errors := false, errors := 0 },
     { name := "backup".toList, health := .RESILVER_ACTIVE, scan_status := [],
       scrub_active := false, resilver_active := true, scrub_errors := false, errors := 0 }]
    rfl).1.trans (by decide)

/-! ### LED update -/

/-- C29: the lookup of `updateLed` sends the ten names `power`, `netdev`,
`disk1`..`disk8` to ten different LEDs and every other name, `disk9` and the
empty name among them, to the power LED; with the controller available the calls
go to that LED; with the controller unavailable `updateLed` returns false and
makes no call. -/
theorem C29_led_name_lookup :
    (∀ a ∈ ["power".toList, "netdev".toList, "disk1".toList, "disk2".toList, "disk3".toList,
        "disk4".toList, "disk5".toList, "disk6".toList, "disk7".toList, "disk8".toList],
      ∀ b ∈ ["power".toList, "netdev".toList, "disk1".toList, "disk2".toList, "disk3".toList,
        "disk4".toList, "disk5".toList, "disk6".toList, "disk7".toList, "disk8".toList],
      updateLed_led_type a = updateLed_led_type b → a = b) ∧
    (∀ led_name : Str,
      led_name ∉ ["power".toList, "netdev".toList, "disk1".toList, "disk2".toList,
        "disk3".toList, "disk4".toList, "disk5".toList, "disk6".toList, "disk7".toList,
        "disk8".toList] →
      updateLed_led_type led_name = led_type_t.power) ∧
    updateLed_led_type "disk9".toList = led_type_t.power ∧
    updateLed_led_type [] = led_type_t.power ∧
    (∀ (led_name : Str) (color : LedColor) (brightness : Nat),
      updateLed true true 0 led_name color brightness =
        (true, [LedWrite.set_rgb (updateLed_led_type led_name) color.r color.g color.b,
          LedWrite.set_brightness (updateLed_led_type led_name) brightness,
          LedWrite.set_onoff (updateLed_led_type led_name) 1])) ∧
    (∀ (led_available led_controller : Bool) (set_rgb_result : Int) (led_name : Str)
        (color : LedColor) (brightness : Nat),
      (led_available = false ∨ led_controller = false) →
      updateLed led_available led_controller set_rgb_result led_name color brightness
        = (false, [])) := by
  refine ⟨by decide, ?_, by decide, by decide, fun _ _ _ => rfl, ?_⟩
  · intro led_name hn
    simp only [List.mem_cons, List.mem_singleton, not_or, List.not_mem_nil, or_false] at hn
    obtain ⟨h1, h2, h3, h4, h5, h6, h7, h8, h9, h10⟩ := hn
    simp only [updateLed_led_type, h1, h2, h3, h4, h5, h6, h7, h8, h9, h10, if_false]
  · intro la lc rc led_name color brightness h
    rcases h with h | h
    · subst h
      cases lc <;> rfl
    · subst h
      cases la <;> rfl

/-- C29 at the name `disk9`, with the LED flag set and the controller missing:
`updateLed` returns false and makes no call. -/
theorem C29_led_name_lookup_witness :
    updateLed true false 0 "disk9".toList ⟨255, 0, 0⟩ 255 = (false, []) :=
  C29_led_name_lookup.2.2.2.2.2 true false 0 "disk9".toList ⟨255, 0, 0⟩ 255 (Or.inr rfl)

/-! ### Configuration in effect -/

/-- C23, at a readable file given with `-c`: `loadConfig` reads
`MONITOR_ZFS_DISKS=false`, `ZFS_POOLS=tank`, `MAPPING_METHOD=hctl` and
`COLOR_ONLINE=0 0 255` from it, and the configuration that `main` of
`ugreen_zfs_monitor.cpp` leaves in the monitor is the default one: `setConfig`
replaces what was loaded by the configuration built from the command line. For
every command line, the configuration in effect is the same with the file as
without any file. -/
theorem C23_config_file_is_discarded :
    (ZfsMonitor.loadConfig ZfsMonitorConfig.construct
        (some "MONITOR_ZFS_DISKS=false\nZFS_POOLS=tank\nMAPPING_METHOD=hctl\nCOLOR_ONLINE=0 0 255\n".toList)).map
        (fun r => (r.1.monitor_zfs_disks, r.1.zfs_pools, r.1.mapping_method, r.1.color_online))
      = some (false, ["tank".toList], "hctl".toList, ⟨0, 0, 255⟩) ∧
    ugreen_zfs_monitor_main_config [('c', "/etc/zfs.conf".toList)] false true true
        (fun _ => some "MONITOR_ZFS_DISKS=false\nZFS_POOLS=tank\nMAPPING_METHOD=hctl\nCOLOR_ONLINE=0 0 255\n".toList)
      = some ZfsMonitorConfig.construct ∧
    (ZfsMonitorConfig.construct.monitor_zfs_disks = true ∧
      ZfsMonitorConfig.construct.zfs_pools = [] ∧
      ZfsMonitorConfig.construct.mapping_method = "ata".toList ∧
      ZfsMonitorConfig.construct.color_online = ⟨0, 255, 0⟩) ∧
    (∀ (options : List (Char × Str)) (extra_arguments : Bool) (read_file : Str → Option Str)
        (config : ZfsMonitorConfig),
      ugreen_zfs_monitor_main_config options extra_arguments true true read_file = some config →
      ugreen_zfs_monitor_main_config options extra_arguments true true (fun _ => none)
        = some config) := by
  refine ⟨by decide, by decide, by decide, ?_⟩
  intro options extra_arguments read_file config h
  unfold ugreen_zfs_monitor_main_config at h ⊢
  cases hp : parseArguments options extra_arguments
      { config := ZfsMonitorConfig.construct, test_mode := false, show_status := false,
        config_file := [] } with
  | none =>
    rw [hp] at h
    exact absurd h (by simp)
  | some a =>
    rw [hp] at h
    simp only [Bool.not_true, Bool.false_eq_true, if_false] at h ⊢
    cases hl : ZfsMonitor.loadConfig ZfsMonitorConfig.construct
        (read_file (if a.config_file.isEmpty = true then "/etc/ugreen-zfs-monitor.conf".toList
          else a.config_file)) with
    | none =>
      rw [hl] at h
      exact absurd h (by simp)
    | some r =>
      rw [hl] at h
      simpa [ZfsMonitor.loadConfig] using h

/-- The option loop of `ugreen_monitor_main.cpp` leaves `monitor_interval` alone
when no option is `-i`. -/
theorem ugreen_monitor_main_options_interval (options : List (Char × Str))
    (a a2 : UgreenArguments) (hno : ∀ o ∈ options, o.1 ≠ 'i')
    (h : ugreen_monitor_main_options a options = some a2) :
    a2.monitor_interval = a.monitor_interval := by
  induction options generalizing a with
  | nil =>
    simp only [ugreen_monitor_main_options, Option.some.injEq] at h
    rw [h]
  | cons o rest ih =>
    obtain ⟨c, optarg⟩ := o
    have hc : c ≠ 'i' := hno (c, optarg) (List.mem_cons_self _ _)
    simp only [ugreen_monitor_main_options] at h
    cases hs : ugreen_monitor_main_option a c optarg with
    | none =>
      rw [hs] at h
      exact absurd h (by simp)
    | some a1 =>
      rw [hs] at h
      have h1 : a1.monitor_interval = a.monitor_interval := by
        unfold ugreen_monitor_main_option at hs
        simp only [hc, if_false] at hs
        split_ifs at hs <;> (simp only [Option.some.injEq] at hs; rw [← hs])
      rw [ih a1 (fun x hx => hno x (List.mem_cons_of_mem _ hx)) h, h1]

/-- The option loop of `ugreen_monitor_main.cpp` leaves `network_only` and
`disks_only` alone when no option is `-n` or `-d`. -/
theorem ugreen_monitor_main_options_flags (options : List (Char × Str))
    (a a2 : UgreenArguments) (hno : ∀ o ∈ options, o.1 ≠ 'n' ∧ o.1 ≠ 'd')
    (h : ugreen_monitor_main_options a options = some a2) :
    a2.network_only = a.network_only ∧ a2.disks_only = a.disks_only := by
  induction options generalizing a with
  | nil =>
    simp only [ugreen_monitor_main_options, Option.some.injEq] at h
    rw [h]
    exact ⟨rfl, rfl⟩
  | cons o rest ih =>
    obtain ⟨c, optarg⟩ := o
    have hc := hno (c, optarg) (List.mem_cons_self _ _)
    simp only [ugreen_monitor_main_options] at h
    cases hs : ugreen_monitor_main_option a c optarg with
    | none =>
      rw [hs] at h
      exact absurd h (by simp)
    | some a1 =>
      rw [hs] at h
      have h1 : a1.network_only = a.network_only ∧ a1.disks_only = a.disks_only := by
        unfold ugreen_monitor_main_option at hs
        simp only [hc.1, hc.2, if_false] at hs
        split_ifs at hs <;> (simp only [Option.some.injEq] at hs; rw [← hs]; exact ⟨rfl, rfl⟩)
      have h2 := ih a1 (fun x hx => hno x (List.mem_cons_of_mem _ hx)) h
      exact ⟨h2.1.trans h1.1, h2.2.trans h1.2⟩

/-- C24, at a file that sets `MONITOR_INTERVAL=60` and a command line without
`-i`: `loadConfig` reads the interval 60, and the configuration that `main` of
`ugreen_monitor_main.cpp` passes to `setConfig` has the interval 30, with the
ping target of the file. Without `-i` the interval in effect is 30 for every
file; without `-n` and `-d` as well, the configuration in effect is the loaded
one with the interval set to 30. -/
theorem C24_interval_of_file_is_overwritten :
    (UgreenMonitor.loadConfig UgreenMonitorConfig.construct
        (some "MONITOR_INTERVAL=60\nPING_TARGET=1.1.1.1\n".toList)).1.monitor_interval = 60 ∧
    (ugreen_monitor_main_config [('c', "/etc/monitor.conf".toList)] true
        (fun _ => some "MONITOR_INTERVAL=60\nPING_TARGET=1.1.1.1\n".toList)).map
        (fun c => (c.monitor_interval, c.ping_target)) = some (30, "1.1.1.1".toList) ∧
    (∀ (options : List (Char × Str)) (is_root : Bool) (read_file : Str → Option Str)
        (config : UgreenMonitorConfig),
      (∀ o ∈ options, o.1 ≠ 'i') →
      ugreen_monitor_main_config options is_root read_file = some config →
      config.monitor_interval = 30) ∧
    (∀ (options : List (Char × Str)) (is_root : Bool) (read_file : Str → Option Str)
        (config : UgreenMonitorConfig),
      (∀ o ∈ options, o.1 ≠ 'i' ∧ o.1 ≠ 'n' ∧ o.1 ≠ 'd') →
      ugreen_monitor_main_config options is_root read_file = some config →
      ∃ path : Str,
        config =
          { (UgreenMonitor.loadConfig UgreenMonitorConfig.construct (read_file path)).1 with
            monitor_interval := 30 }) := by
  refine ⟨by decide, by decide, ?_, ?_⟩
  · intro options is_root read_file config hno h
    unfold ugreen_monitor_main_config at h
    cases ho : ugreen_monitor_main_options
        { test_mode := false, network_only := false, disks_only := false,
          show_status := false, show_help := false, show_version := false,
          monitor_interval := 30, config_file := [] } options with
    | none =>
      rw [ho] at h
      exact absurd h (by simp)
    | some a =>
      rw [ho] at h
      have hi := ugreen_monitor_main_options_interval options _ a hno ho
      simp only at hi h
      split_ifs at h <;> (have h2 := Option.some.inj h; rw [← h2]; exact hi)
  · intro options is_root read_file config hno h
    unfold ugreen_monitor_main_config at h
    cases ho : ugreen_monitor_main_options
        { test_mode := false, network_only := false, disks_only := false,
          show_status := false, show_help := false, show_version := false,
          monitor_interval := 30, config_file := [] } options with
    | none =>
      rw [ho] at h
      exact absurd h (by simp)
    | some a =>
      rw [ho] at h
      have hi := ugreen_monitor_main_options_interval options _ a (fun o ho2 => (hno o ho2).1) ho
      have hf := ugreen_monitor_main_options_flags options _ a (fun o ho2 => (hno o ho2).2) ho
      simp only at hi hf h
      refine ⟨if a.config_file.isEmpty = true then "/etc/ugreen-monitor.conf".toList
        else a.config_file, ?_⟩
      simp only [hf.1, hf.2, hi, Bool.false_eq_true, if_false, Bool.and_self] at h
      split_ifs at h ⊢ <;> (have h2 := Option.some.inj h; rw [← h2])

end Ugreen
